import Mathlib

/-!
# Verification of the Honeybadger MCP tool-invocation gateway

Shallow embedding of `src/unnamed/part_000` (a TypeScript MCP server exposing
the Honeybadger REST API as tools).  Pure computations (project-id resolution,
timestamp parsing, error-message mapping, response formatting, the analysis
template) are translated into executable Lean functions; each tool handler is
modelled as a function from its (schema-validated) arguments, the startup
configuration and the outcome of its HTTP fetches to the produced tool result
together with the list of HTTP requests it dispatched.

JavaScript runtime primitives used by the source are modelled explicitly:
  * `JsNum` models the JS numbers flowing through `resolveProjectId`
    (an integer or `NaN`; the claims under study never involve fractional
    values, so the fractional case is not represented).
  * `jsNumber` models `Number(s)` on the fragment the claims exercise:
    the empty string maps to `0`, a nonempty all-digit string to its decimal
    value, and every other string to `NaN`.
  * `jsDateParse` / `toISOString` model `new Date(s)` / `Date.toISOString`
    on the RFC3339 UTC fragment (`YYYY-MM-DD`, optionally followed by
    `THH:MM:SS` with optional `.mmm`, and a literal `Z`); strings outside
    this fragment are treated as unparseable (`Invalid Date`).
-/

namespace HB

/-- A JavaScript number as used by `resolveProjectId`: either `NaN` or an
integer (fractional values never arise in the verified claims). -/
inductive JsNum where
  | nan : JsNum
  | int (n : Int) : JsNum
deriving DecidableEq, Repr

/-- JS truthiness of a number: `NaN` and `0` are falsy. -/
def JsNum.truthy : JsNum → Bool
  | .nan => false
  | .int n => n != 0

/-- Numeric value of a decimal digit character. -/
def digitVal (c : Char) : Nat := c.toNat - 48

/-- Decimal value of a digit string. -/
def digitsToNat (cs : List Char) : Nat :=
  cs.foldl (fun acc c => acc * 10 + digitVal c) 0

/-- Model of JS `Number(s)` on the fragment exercised by the claims:
`Number("") = 0`, a nonempty decimal-digit string converts to its value, and
any other string is treated as `NaN`. -/
def jsNumber (s : String) : JsNum :=
  if s = "" then .int 0
  else if s.toList.all Char.isDigit then .int (digitsToNat s.toList : Int)
  else .nan

/-- The startup configuration, built once in the `HoneybadgerMCPServer`
constructor from the process environment (`apiKey`, `projectId`, `baseUrl`,
`readOnly`).  Environment variables are `Option String` (absent = unset). -/
structure Config where
  apiKey : String
  projectId : Option String
  baseUrl : String
  readOnly : Bool
deriving Repr

/-- `readOnly: process.env.HONEYBADGER_READ_ONLY !== 'false'`. -/
def readOnlyOfEnv (readOnlyEnv : Option String) : Bool :=
  readOnlyEnv != some "false"

/-- Constructor of the config from the four environment inputs
(`HONEYBADGER_API_KEY`, `HONEYBADGER_PROJECT_ID`, `HONEYBADGER_BASE_URL`,
`HONEYBADGER_READ_ONLY`).  `apiKey: process.env.HONEYBADGER_API_KEY || ''`,
`baseUrl: ... || 'https://app.honeybadger.io'`. -/
def mkConfig (apiKeyEnv projectIdEnv baseUrlEnv readOnlyEnv : Option String) :
    Config where
  apiKey := match apiKeyEnv with
    | some s => if s ≠ "" then s else ""
    | none => ""
  projectId := projectIdEnv
  baseUrl := match baseUrlEnv with
    | some s => if s ≠ "" then s else "https://app.honeybadger.io"
    | none => "https://app.honeybadger.io"
  readOnly := readOnlyOfEnv readOnlyEnv

/-- The error message thrown by `resolveProjectId` when no project id is
available. -/
def projectIdRequiredMsg : String :=
  "Project ID required. Provide via project_id parameter or HONEYBADGER_PROJECT_ID env var."

/-- `resolveProjectId(providedId?)`: JS
`const pid = providedId || (this.config.projectId ? Number(this.config.projectId) : undefined);
 if (!pid) throw ...; return pid;`.
`providedId || x` takes `providedId` when truthy, otherwise `x`; a config
`projectId` participates only when it is a nonempty string (JS string
truthiness). -/
def resolveProjectId (providedId : Option JsNum) (cfgProjectId : Option String) :
    Except String JsNum :=
  let envPid : Option JsNum :=
    match cfgProjectId with
    | some s => if s ≠ "" then some (jsNumber s) else none
    | none => none
  let pid : Option JsNum :=
    match providedId with
    | some p => if p.truthy then some p else envPid
    | none => envPid
  match pid with
  | some p => if p.truthy then .ok p else .error projectIdRequiredMsg
  | none => .error projectIdRequiredMsg

/-! ## HTTP client (`makeHoneybadgerRequest`) -/

/-- A query-parameter or body-field value (`params: any = {...}` and
`data: any = {...}` in the source hold numbers, strings and booleans). -/
inductive PVal where
  | pint (n : Int) : PVal
  | pstr (s : String) : PVal
  | pbool (b : Bool) : PVal
deriving DecidableEq, Repr

/-- One HTTP request as dispatched by `makeHoneybadgerRequest` via axios:
method, the composed URL `baseUrl ++ "/v2" ++ endpoint`, query parameters
and (for POST/PUT) the body object's fields. -/
structure Request where
  method : String
  url : String
  params : List (String × PVal)
  body : Option (List (String × PVal))
deriving DecidableEq, Repr

/-- The outcome of a single axios call, as observed by the `catch` block of
`makeHoneybadgerRequest`: a 2xx response carrying a payload of type `α`, an
error response (`error.response` present) with its status, optional
`data.error` body field and `statusText`, or no response at all
(`error.response` absent: network/DNS/timeout failure) with its message. -/
inductive HttpOutcome (α : Type) where
  | ok (data : α) : HttpOutcome α
  | httpError (status : Nat) (errorField : Option String) (statusText : String) :
      HttpOutcome α
  | networkError (msg : String) : HttpOutcome α

/-- `error.response.data?.error || error.response.statusText`: the body's
`error` field when present and truthy (a nonempty string), otherwise the
status text. -/
def serviceMessage (errorField : Option String) (statusText : String) : String :=
  match errorField with
  | some m => if m ≠ "" then m else statusText
  | none => statusText

/-- The status-code → error-message mapping of the `catch` block of
`makeHoneybadgerRequest` (the `error.response` branch). -/
def httpErrorMessage (endpoint : String) (status : Nat)
    (errorField : Option String) (statusText : String) : String :=
  let message := serviceMessage errorField statusText
  if status = 401 then "Authentication failed. Check HONEYBADGER_API_KEY."
  else if status = 403 then "Permission denied: " ++ message
  else if status = 404 then "Not found: " ++ endpoint
  else if status = 422 then "Validation error: " ++ message
  else if status = 429 then "Rate limit exceeded. Please wait and retry."
  else "Honeybadger API error: " ++ toString status ++ " - " ++ message

/-- The message thrown when the API key is missing at call time. -/
def apiKeyRequiredMsg : String :=
  "HONEYBADGER_API_KEY environment variable is required"

/-- `makeHoneybadgerRequest(endpoint, options)`: fails fast when
`config.apiKey` is empty (before any HTTP call); otherwise performs exactly
one axios call whose outcome is `outcome`, returning the payload on 2xx and
mapping failures through the error taxonomy.  The second component lists the
HTTP requests actually dispatched. -/
def makeHoneybadgerRequest {α : Type} (cfg : Config) (endpoint : String)
    (method : String) (params : List (String × PVal))
    (body : Option (List (String × PVal)))
    (outcome : HttpOutcome α) : Except String α × List Request :=
  if cfg.apiKey = "" then (.error apiKeyRequiredMsg, [])
  else
    let req : Request :=
      { method := method, url := cfg.baseUrl ++ "/v2" ++ endpoint,
        params := params, body := body }
    match outcome with
    | .ok data => (.ok data, [req])
    | .httpError status errorField statusText =>
        (.error (httpErrorMessage endpoint status errorField statusText), [req])
    | .networkError msg => (.error ("Network error: " ++ msg), [req])

/-! ## Result shapes and response formatters -/

/-- The uniform tool result as returned to the MCP layer:
`{content: [{type: 'text', text}], isError?}`.  Every handler returns a
single text content block, so the content list is represented by its text. -/
structure ToolResult where
  text : String
  isError : Bool
deriving DecidableEq, Repr

/-- `toolError(message)`. -/
def toolError (message : String) : ToolResult :=
  { text := message, isError := true }

/-- `formatJsonResponse(data)`: pretty-printed payload, not an error.
Raw payloads are represented by their serialized form. -/
def formatJsonResponse (data : String) : ToolResult :=
  { text := data, isError := false }

/-- The optional metadata record accepted by `formatListResponse`. -/
structure ListMetadata where
  total : Option Int
  page : Option Int
  per_page : Option Int
deriving Repr

/-- `formatListResponse(items, metadata?)`: summary =
`Found <n> items` + ` (<total> total)` when `metadata?.total` is truthy
+ `, page <page>` when `metadata?.page` is truthy, followed by the
pretty-printed items.  JS numeric truthiness: a metadata field of `0` (or an
absent one) is skipped.  Items are represented by their serialized form;
`jsonStringifyList` stands for `JSON.stringify(items, null, 2)`. -/
def jsonStringifyList (items : List String) : String :=
  match items with
  | [] => "[]"
  | _ => "[\n" ++ String.intercalate ",\n" items ++ "\n]"

/-- The summary line built by `formatListResponse`. -/
def listSummary (itemCount : Nat) (metadata : Option ListMetadata) : String :=
  let base := "Found " ++ toString itemCount ++ " items"
  let withTotal :=
    match metadata with
    | some md =>
        match md.total with
        | some t => if t ≠ 0 then base ++ " (" ++ toString t ++ " total)" else base
        | none => base
    | none => base
  match metadata with
  | some md =>
      match md.page with
      | some p => if p ≠ 0 then withTotal ++ ", page " ++ toString p else withTotal
      | none => withTotal
  | none => withTotal

/-- `formatListResponse(items, metadata?)`. -/
def formatListResponse (items : List String) (metadata : Option ListMetadata) :
    ToolResult :=
  { text := listSummary items.length metadata ++ "\n\n" ++ jsonStringifyList items,
    isError := false }

/-- `formatWriteResponse(data, operation)`: `Successfully <operation>` plus the
pretty-printed payload. -/
def formatWriteResponse (data : String) (operation : String) : ToolResult :=
  { text := "Successfully " ++ operation ++ "\n\n" ++ data, isError := false }

/-! ## JS `Date` model (`parseTimestamp`)

`new Date(s)` / `Date.prototype.toISOString` are modelled on the RFC3339 UTC
fragment: `YYYY-MM-DD`, optionally followed by `THH:MM:SS` (optionally with
`.mmm`) and a literal `Z`.  Component values are validated the way modern
engines validate ISO date strings (out-of-range components give
`Invalid Date`); strings outside this fragment are treated as unparseable. -/

/-- A parsed UTC instant, by civil components. -/
structure DateTime where
  year : Nat
  month : Nat
  day : Nat
  hour : Nat
  minute : Nat
  second : Nat
  millis : Nat
deriving DecidableEq, Repr

/-- Gregorian leap year. -/
def isLeapYear (y : Nat) : Bool :=
  (y % 4 == 0 && y % 100 != 0) || y % 400 == 0

/-- Days in a month of the proleptic Gregorian calendar. -/
def daysInMonth (y m : Nat) : Nat :=
  if m = 2 then (if isLeapYear y then 29 else 28)
  else if m = 4 ∨ m = 6 ∨ m = 9 ∨ m = 11 then 30
  else 31

/-- Component validity of a parsed date-time (4-digit years only, matching
the ISO format accepted by the parser). -/
def DateTime.Valid (dt : DateTime) : Prop :=
  1 ≤ dt.month ∧ dt.month ≤ 12 ∧ 1 ≤ dt.day ∧ dt.day ≤ daysInMonth dt.year dt.month ∧
    dt.hour ≤ 23 ∧ dt.minute ≤ 59 ∧ dt.second ≤ 59 ∧ dt.millis ≤ 999 ∧ dt.year ≤ 9999

instance (dt : DateTime) : Decidable dt.Valid := by
  unfold DateTime.Valid; infer_instance

/-- The decimal digit character for `d < 10`. -/
def digitChr (d : Nat) : Char := Char.ofNat (48 + d)

/-- Read exactly `k` decimal digits from the front of `cs`. -/
def parseDigits (k : Nat) (cs : List Char) : Option (Nat × List Char) :=
  if (cs.take k).length = k ∧ (cs.take k).all Char.isDigit then
    some ((cs.take k).foldl (fun acc c => acc * 10 + digitVal c) 0, cs.drop k)
  else none

/-- The `k`-digit zero-padded decimal representation of `n` (for `n < 10^k`). -/
def padDigits : Nat → Nat → List Char
  | 0, _ => []
  | k + 1, n => padDigits k (n / 10) ++ [digitChr (n % 10)]

/-- Consume one expected literal character. -/
def expectChar (c : Char) : List Char → Option (List Char)
  | x :: xs => if x = c then some xs else none
  | [] => none

/-- Time-of-day part of the syntactic parse: `THH:MM:SS`, optionally `.mmm`,
then `Z`, then end of input. -/
def parseTimePart (y mo d : Nat) (cs : List Char) : Option DateTime :=
  match expectChar 'T' cs with
  | none => none
  | some cs =>
  match parseDigits 2 cs with
  | none => none
  | some (h, cs) =>
  match expectChar ':' cs with
  | none => none
  | some cs =>
  match parseDigits 2 cs with
  | none => none
  | some (mi, cs) =>
  match expectChar ':' cs with
  | none => none
  | some cs =>
  match parseDigits 2 cs with
  | none => none
  | some (s, cs) =>
  match
    (match cs with
     | '.' :: cs2 =>
       match parseDigits 3 cs2 with
       | none => none
       | some (ms, cs3) => some (ms, cs3)
     | _ => some (0, cs)) with
  | none => none
  | some (ms, cs) =>
  match expectChar 'Z' cs with
  | none => none
  | some cs =>
  match cs with
  | [] => some ⟨y, mo, d, h, mi, s, ms⟩
  | _ => none

/-- Syntactic parse of the RFC3339 UTC fragment (no component validation):
`YYYY-MM-DD`, optionally followed by a `parseTimePart` suffix.  A date-only
string denotes UTC midnight, as in JS. -/
def parseRaw (cs : List Char) : Option DateTime :=
  match parseDigits 4 cs with
  | none => none
  | some (y, cs) =>
  match expectChar '-' cs with
  | none => none
  | some cs =>
  match parseDigits 2 cs with
  | none => none
  | some (mo, cs) =>
  match expectChar '-' cs with
  | none => none
  | some cs =>
  match parseDigits 2 cs with
  | none => none
  | some (d, cs) =>
  match cs with
  | [] => some ⟨y, mo, d, 0, 0, 0, 0⟩
  | _ => parseTimePart y mo d cs

/-- Model of `new Date(s)` followed by the `isNaN(date.getTime())` check:
`some dt` on a valid date string of the modelled fragment, `none` for
`Invalid Date`. -/
def jsDateParse (s : String) : Option DateTime :=
  match parseRaw s.toList with
  | some dt => if dt.Valid then some dt else none
  | none => none

/-- `Date.prototype.toISOString`: `YYYY-MM-DDTHH:MM:SS.mmmZ`, as a character
list. -/
def toISOList (dt : DateTime) : List Char :=
  padDigits 4 dt.year ++ '-' :: padDigits 2 dt.month ++ '-' :: padDigits 2 dt.day ++
    'T' :: padDigits 2 dt.hour ++ ':' :: padDigits 2 dt.minute ++
    ':' :: padDigits 2 dt.second ++ '.' :: padDigits 3 dt.millis ++ ['Z']

/-- `Date.prototype.toISOString`. -/
def toISOString (dt : DateTime) : String := String.mk (toISOList dt)

/-- The error message thrown by `parseTimestamp` for an unparseable value. -/
def invalidTimestampMsg (ts : String) : String :=
  "Invalid timestamp: \"" ++ ts ++ "\". Use RFC3339 format, e.g. \"2026-02-16T10:00:00Z\""

/-- `parseTimestamp(ts?)`: returns `undefined` for an absent or empty (falsy)
input, throws on an unparseable value, otherwise normalizes through
`new Date(ts).toISOString()`. -/
def parseTimestamp (ts : Option String) : Except String (Option String) :=
  match ts with
  | none => .ok none
  | some ts =>
    if ts = "" then .ok none
    else
      match jsDateParse ts with
      | none => .error (invalidTimestampMsg ts)
      | some dt => .ok (some (toISOString dt))

/-! ## Tool argument schemas and handlers

Each tool is modelled as the composition of (a) the zod `inputSchema`
declared at registration, applied by the MCP SDK before the handler runs
(a failed parse produces an invalid-arguments error result and the handler
never runs), and (b) the handler body.  Raw caller arguments carry `Option`
fields (absent = not supplied); the schema applies bounds, required-field
checks and `.default(...)` values.  Handlers additionally receive the
outcome of each HTTP fetch they may perform and return the produced result
together with the list of requests actually dispatched. -/

/-- Rendering of a JS number into a template string (`${pid}`). -/
def JsNum.render : JsNum → String
  | .nan => "NaN"
  | .int n => toString n

/-- The SDK-level result produced when the caller's arguments fail the
declared zod schema (MCP `InvalidParams`); its exact text lives in the MCP
SDK, outside this repository — the verified claims rely only on it being an
error produced before the handler runs. -/
def invalidArgumentsResult (toolName : String) : ToolResult :=
  { text := "Invalid arguments for tool " ++ toolName, isError := true }

/-- The envelope of a listing response: the `results` key is optional
(`data.results || []`), `total_count` optional.  The `page` key models a
page number the service may include in its envelope; no handler of the
source ever reads it.  Items are represented by their serialized form. -/
structure ListEnvelope where
  results : Option (List String)
  total_count : Option Int
  page : Option Int
deriving Repr

/-! ### `list_honeybadger_projects` -/

structure ProjectsRawArgs where
  account_id : Option String
  page : Option Int
  per_page : Option Int
deriving Repr

structure ProjectsArgs where
  account_id : Option String
  page : Int
  per_page : Int
deriving Repr

/-- Schema `{account_id: z.string().optional(), page: z.number().min(1).default(1),
per_page: z.number().min(1).max(100).default(20)}`. -/
def zodParseProjects (raw : ProjectsRawArgs) : Option ProjectsArgs :=
  match raw.page with
  | some p => if 1 ≤ p then
      match raw.per_page with
      | some pp => if 1 ≤ pp ∧ pp ≤ 100 then some ⟨raw.account_id, p, pp⟩ else none
      | none => some ⟨raw.account_id, p, 20⟩
    else none
  | none =>
    match raw.per_page with
    | some pp => if 1 ≤ pp ∧ pp ≤ 100 then some ⟨raw.account_id, 1, pp⟩ else none
    | none => some ⟨raw.account_id, 1, 20⟩

/-- Handler body of `list_honeybadger_projects`. -/
def listProjectsHandler (cfg : Config) (args : ProjectsArgs)
    (outcome : HttpOutcome ListEnvelope) : ToolResult × List Request :=
  let params : List (String × PVal) :=
    [("page", .pint args.page), ("per_page", .pint (min args.per_page 100))]
  let endpoint :=
    match args.account_id with
    | some aid => if aid ≠ "" then "/accounts/" ++ aid ++ "/projects" else "/projects"
    | none => "/projects"
  match makeHoneybadgerRequest cfg endpoint "GET" params none outcome with
  | (.ok data, reqs) =>
      (formatListResponse (data.results.getD [])
        (some ⟨data.total_count, some args.page, some args.per_page⟩), reqs)
  | (.error e, reqs) => (toolError e, reqs)

/-- Full `list_honeybadger_projects` pipeline: SDK schema parse, then the
handler. -/
def list_honeybadger_projects (cfg : Config) (raw : ProjectsRawArgs)
    (outcome : HttpOutcome ListEnvelope) : ToolResult × List Request :=
  match zodParseProjects raw with
  | none => (invalidArgumentsResult "list_honeybadger_projects", [])
  | some args => listProjectsHandler cfg args outcome

/-! ### `list_honeybadger_faults` -/

structure FaultsRawArgs where
  project_id : Option Int
  q : Option String
  created_after : Option String
  occurred_after : Option String
  occurred_before : Option String
  limit : Option Int
  order : Option String
  page : Option Int
deriving Repr

structure FaultsArgs where
  project_id : Option Int
  q : Option String
  created_after : Option String
  occurred_after : Option String
  occurred_before : Option String
  limit : Int
  order : String
  page : Int
deriving Repr

/-- Schema of `list_honeybadger_faults`:
`project_id: z.number().min(1).optional()`, free-form strings,
`limit: z.number().min(1).max(25).default(20)`,
`order: z.enum(['recent','frequent']).default('recent')`,
`page: z.number().min(1).default(1)`. -/
def zodParseFaults (raw : FaultsRawArgs) : Option FaultsArgs :=
  let pidOk : Bool := match raw.project_id with
    | some p => decide (1 ≤ p)
    | none => true
  let limitOk : Bool := match raw.limit with
    | some l => decide (1 ≤ l ∧ l ≤ 25)
    | none => true
  let orderOk : Bool := match raw.order with
    | some o => decide (o = "recent" ∨ o = "frequent")
    | none => true
  let pageOk : Bool := match raw.page with
    | some p => decide (1 ≤ p)
    | none => true
  if pidOk && limitOk && orderOk && pageOk then
    some ⟨raw.project_id, raw.q, raw.created_after, raw.occurred_after,
      raw.occurred_before, raw.limit.getD 20, raw.order.getD "recent",
      raw.page.getD 1⟩
  else none

/-- `if (<ts arg>) params.<key> = this.parseTimestamp(<ts arg>)`: a truthy
timestamp argument is parsed (throwing on a malformed value) and appended to
the query parameters. -/
def addTimestampParam (params : List (String × PVal)) (key : String)
    (v : Option String) : Except String (List (String × PVal)) :=
  match v with
  | none => .ok params
  | some s =>
    if s = "" then .ok params
    else
      match parseTimestamp (some s) with
      | .error e => .error e
      | .ok none => .ok params
      | .ok (some iso) => .ok (params ++ [(key, .pstr iso)])

/-- `if (q) params.q = q`. -/
def addStringParam (params : List (String × PVal)) (key : String)
    (v : Option String) : List (String × PVal) :=
  match v with
  | none => params
  | some s => if s ≠ "" then params ++ [(key, .pstr s)] else params

/-- Handler body of `list_honeybadger_faults`: resolve the project id, build
`{limit: Math.min(limit, 25), order, page}` plus optional filters (timestamps
validated), dispatch, and format with `{total: data.total_count, page,
per_page: limit}`. -/
def listFaultsHandler (cfg : Config) (args : FaultsArgs)
    (outcome : HttpOutcome ListEnvelope) : ToolResult × List Request :=
  match resolveProjectId (args.project_id.map JsNum.int) cfg.projectId with
  | .error e => (toolError e, [])
  | .ok pid =>
    let params : List (String × PVal) :=
      [("limit", .pint (min args.limit 25)), ("order", .pstr args.order),
       ("page", .pint args.page)]
    let params := addStringParam params "q" args.q
    match addTimestampParam params "created_after" args.created_after with
    | .error e => (toolError e, [])
    | .ok params =>
    match addTimestampParam params "occurred_after" args.occurred_after with
    | .error e => (toolError e, [])
    | .ok params =>
    match addTimestampParam params "occurred_before" args.occurred_before with
    | .error e => (toolError e, [])
    | .ok params =>
    let endpoint := "/projects/" ++ pid.render ++ "/faults"
    match makeHoneybadgerRequest cfg endpoint "GET" params none outcome with
    | (.ok data, reqs) =>
        (formatListResponse (data.results.getD [])
          (some ⟨data.total_count, some args.page, some args.limit⟩), reqs)
    | (.error e, reqs) => (toolError e, reqs)

/-- Full `list_honeybadger_faults` pipeline. -/
def list_honeybadger_faults (cfg : Config) (raw : FaultsRawArgs)
    (outcome : HttpOutcome ListEnvelope) : ToolResult × List Request :=
  match zodParseFaults raw with
  | none => (invalidArgumentsResult "list_honeybadger_faults", [])
  | some args => listFaultsHandler cfg args outcome

/-! ### `list_honeybadger_fault_notices` -/

structure NoticesRawArgs where
  fault_id : Option Int
  project_id : Option Int
  limit : Option Int
deriving Repr

structure NoticesArgs where
  fault_id : Int
  project_id : Option Int
  limit : Int
deriving Repr

/-- Schema `{fault_id: z.number().min(1), project_id: z.number().min(1).optional(),
limit: z.number().min(1).max(25).default(10)}`. -/
def zodParseNotices (raw : NoticesRawArgs) : Option NoticesArgs :=
  match raw.fault_id with
  | none => none
  | some fid =>
    if 1 ≤ fid then
      let pidOk : Bool := match raw.project_id with
        | some p => decide (1 ≤ p)
        | none => true
      let limitOk : Bool := match raw.limit with
        | some l => decide (1 ≤ l ∧ l ≤ 25)
        | none => true
      if pidOk && limitOk then some ⟨fid, raw.project_id, raw.limit.getD 10⟩
      else none
    else none

/-- Handler body of `list_honeybadger_fault_notices`: dispatch with
`{limit: Math.min(limit, 25)}` and format with `{total: data.total_count}`
(no page metadata is ever passed). -/
def listNoticesHandler (cfg : Config) (args : NoticesArgs)
    (outcome : HttpOutcome ListEnvelope) : ToolResult × List Request :=
  match resolveProjectId (args.project_id.map JsNum.int) cfg.projectId with
  | .error e => (toolError e, [])
  | .ok pid =>
    let endpoint := "/projects/" ++ pid.render ++ "/faults/" ++
      toString args.fault_id ++ "/notices"
    match makeHoneybadgerRequest cfg endpoint "GET"
        [("limit", .pint (min args.limit 25))] none outcome with
    | (.ok data, reqs) =>
        (formatListResponse (data.results.getD [])
          (some ⟨data.total_count, none, none⟩), reqs)
    | (.error e, reqs) => (toolError e, reqs)

/-- Full `list_honeybadger_fault_notices` pipeline. -/
def list_honeybadger_fault_notices (cfg : Config) (raw : NoticesRawArgs)
    (outcome : HttpOutcome ListEnvelope) : ToolResult × List Request :=
  match zodParseNotices raw with
  | none => (invalidArgumentsResult "list_honeybadger_fault_notices", [])
  | some args => listNoticesHandler cfg args outcome

/-! ### `get_honeybadger_project` / `get_honeybadger_fault` -/

/-- Schema `{id: z.number().min(1)}` and handler of `get_honeybadger_project`
(raw payloads are represented by their serialized form). -/
def get_honeybadger_project (cfg : Config) (rawId : Option Int)
    (outcome : HttpOutcome String) : ToolResult × List Request :=
  match rawId with
  | none => (invalidArgumentsResult "get_honeybadger_project", [])
  | some id =>
    if 1 ≤ id then
      match makeHoneybadgerRequest cfg ("/projects/" ++ toString id) "GET" []
          none outcome with
      | (.ok data, reqs) => (formatJsonResponse data, reqs)
      | (.error e, reqs) => (toolError e, reqs)
    else (invalidArgumentsResult "get_honeybadger_project", [])

structure GetFaultRawArgs where
  fault_id : Option Int
  project_id : Option Int
deriving Repr

/-- Schema `{fault_id: z.number().min(1), project_id: z.number().min(1).optional()}`
and handler of `get_honeybadger_fault`. -/
def get_honeybadger_fault (cfg : Config) (raw : GetFaultRawArgs)
    (outcome : HttpOutcome String) : ToolResult × List Request :=
  match raw.fault_id with
  | none => (invalidArgumentsResult "get_honeybadger_fault", [])
  | some fid =>
    if decide (1 ≤ fid) && (match raw.project_id with
        | some p => decide (1 ≤ p)
        | none => true) then
      match resolveProjectId (raw.project_id.map JsNum.int) cfg.projectId with
      | .error e => (toolError e, [])
      | .ok pid =>
        match makeHoneybadgerRequest cfg
            ("/projects/" ++ pid.render ++ "/faults/" ++ toString fid) "GET" []
            none outcome with
        | (.ok data, reqs) => (formatJsonResponse data, reqs)
        | (.error e, reqs) => (toolError e, reqs)
    else (invalidArgumentsResult "get_honeybadger_fault", [])

/-! ### Write tools (`create` / `update` / `delete` project) -/

/-- Rendering of a field value, for serialized JSON bodies. -/
def PVal.render : PVal → String
  | .pint n => toString n
  | .pstr s => "\"" ++ s ++ "\""
  | .pbool b => if b then "true" else "false"

/-- `JSON.stringify` of a flat object, used where a handler pretty-prints an
object it built itself (whitespace is not modelled; no claim inspects it). -/
def pairsToJson (ps : List (String × PVal)) : String :=
  "\x7b" ++
    String.intercalate ", "
      (ps.map (fun p => "\"" ++ p.1 ++ "\": " ++ p.2.render)) ++
  "\x7d"

structure CreateProjectRawArgs where
  account_id : Option String
  name : Option String
  resolve_errors_on_deploy : Option Bool
  disable_public_links : Option Bool
  user_url : Option String
  source_url : Option String
  purge_days : Option Int
  user_search_field : Option String
deriving Repr

structure CreateProjectArgs where
  account_id : String
  name : String
  resolve_errors_on_deploy : Option Bool
  disable_public_links : Option Bool
  user_url : Option String
  source_url : Option String
  purge_days : Option Int
  user_search_field : Option String
deriving Repr

/-- Schema of `create_honeybadger_project`:
`account_id: z.string().min(1)` (required), `name: z.string().min(1).max(255)`
(required), optional booleans/strings, `purge_days: z.number().min(1).optional()`. -/
def zodParseCreateProject (raw : CreateProjectRawArgs) :
    Option CreateProjectArgs :=
  match raw.account_id, raw.name with
  | some aid, some nm =>
    if decide (1 ≤ aid.length) && decide (1 ≤ nm.length ∧ nm.length ≤ 255) &&
        (match raw.purge_days with
         | some d => decide (1 ≤ d)
         | none => true) then
      some ⟨aid, nm, raw.resolve_errors_on_deploy, raw.disable_public_links,
        raw.user_url, raw.source_url, raw.purge_days, raw.user_search_field⟩
    else none
  | _, _ => none

/-- The body object built by the `create_honeybadger_project` handler:
`{name}` plus `resolve_errors_on_deploy`/`disable_public_links` when not
`undefined`, and `user_url`/`source_url`/`purge_days`/`user_search_field`
when truthy. -/
def createProjectBody (args : CreateProjectArgs) : List (String × PVal) :=
  let data : List (String × PVal) := [("name", .pstr args.name)]
  let data := match args.resolve_errors_on_deploy with
    | some b => data ++ [("resolve_errors_on_deploy", .pbool b)]
    | none => data
  let data := match args.disable_public_links with
    | some b => data ++ [("disable_public_links", .pbool b)]
    | none => data
  let data := match args.user_url with
    | some s => if s ≠ "" then data ++ [("user_url", .pstr s)] else data
    | none => data
  let data := match args.source_url with
    | some s => if s ≠ "" then data ++ [("source_url", .pstr s)] else data
    | none => data
  let data := match args.purge_days with
    | some d => if d ≠ 0 then data ++ [("purge_days", .pint d)] else data
    | none => data
  match args.user_search_field with
  | some s => if s ≠ "" then data ++ [("user_search_field", .pstr s)] else data
  | none => data

/-- Handler body of `create_honeybadger_project`: one POST to `/projects`
(with `account_id` as a query parameter when truthy), then
`formatWriteResponse(result, 'created project')`. -/
def createProjectHandler (cfg : Config) (args : CreateProjectArgs)
    (outcome : HttpOutcome String) : ToolResult × List Request :=
  let params : List (String × PVal) :=
    if args.account_id ≠ "" then [("account_id", .pstr args.account_id)] else []
  match makeHoneybadgerRequest cfg "/projects" "POST" params
      (some (createProjectBody args)) outcome with
  | (.ok result, reqs) => (formatWriteResponse result "created project", reqs)
  | (.error e, reqs) => (toolError e, reqs)

/-- Full `create_honeybadger_project` pipeline. -/
def create_honeybadger_project (cfg : Config) (raw : CreateProjectRawArgs)
    (outcome : HttpOutcome String) : ToolResult × List Request :=
  match zodParseCreateProject raw with
  | none => (invalidArgumentsResult "create_honeybadger_project", [])
  | some args => createProjectHandler cfg args outcome

structure UpdateProjectRawArgs where
  id : Option Int
  name : Option String
  resolve_errors_on_deploy : Option Bool
  disable_public_links : Option Bool
  user_url : Option String
  source_url : Option String
  purge_days : Option Int
  user_search_field : Option String
deriving Repr

structure UpdateProjectArgs where
  id : Int
  name : Option String
  resolve_errors_on_deploy : Option Bool
  disable_public_links : Option Bool
  user_url : Option String
  source_url : Option String
  purge_days : Option Int
  user_search_field : Option String
deriving Repr

/-- Schema of `update_honeybadger_project`: `id: z.number().min(1)` (required),
`name: z.string().min(1).max(255).optional()`, optional booleans/strings,
`purge_days: z.number().min(1).optional()`. -/
def zodParseUpdateProject (raw : UpdateProjectRawArgs) :
    Option UpdateProjectArgs :=
  match raw.id with
  | none => none
  | some id =>
    if decide (1 ≤ id) &&
        (match raw.name with
         | some nm => decide (1 ≤ nm.length ∧ nm.length ≤ 255)
         | none => true) &&
        (match raw.purge_days with
         | some d => decide (1 ≤ d)
         | none => true) then
      some ⟨id, raw.name, raw.resolve_errors_on_deploy, raw.disable_public_links,
        raw.user_url, raw.source_url, raw.purge_days, raw.user_search_field⟩
    else none

/-- The body object built by the `update_honeybadger_project` handler:
`name` when truthy, every other field when not `undefined`. -/
def updateProjectBody (args : UpdateProjectArgs) : List (String × PVal) :=
  let data : List (String × PVal) := []
  let data := match args.name with
    | some s => if s ≠ "" then data ++ [("name", .pstr s)] else data
    | none => data
  let data := match args.resolve_errors_on_deploy with
    | some b => data ++ [("resolve_errors_on_deploy", .pbool b)]
    | none => data
  let data := match args.disable_public_links with
    | some b => data ++ [("disable_public_links", .pbool b)]
    | none => data
  let data := match args.user_url with
    | some s => data ++ [("user_url", .pstr s)]
    | none => data
  let data := match args.source_url with
    | some s => data ++ [("source_url", .pstr s)]
    | none => data
  let data := match args.purge_days with
    | some d => data ++ [("purge_days", .pint d)]
    | none => data
  match args.user_search_field with
  | some s => data ++ [("user_search_field", .pstr s)]
  | none => data

/-- Handler body of `update_honeybadger_project`: one PUT to
`/projects/<id>`, then `formatWriteResponse(result, 'updated project')`. -/
def updateProjectHandler (cfg : Config) (args : UpdateProjectArgs)
    (outcome : HttpOutcome String) : ToolResult × List Request :=
  match makeHoneybadgerRequest cfg ("/projects/" ++ toString args.id) "PUT" []
      (some (updateProjectBody args)) outcome with
  | (.ok result, reqs) => (formatWriteResponse result "updated project", reqs)
  | (.error e, reqs) => (toolError e, reqs)

/-- Full `update_honeybadger_project` pipeline. -/
def update_honeybadger_project (cfg : Config) (raw : UpdateProjectRawArgs)
    (outcome : HttpOutcome String) : ToolResult × List Request :=
  match zodParseUpdateProject raw with
  | none => (invalidArgumentsResult "update_honeybadger_project", [])
  | some args => updateProjectHandler cfg args outcome

structure DeleteProjectRawArgs where
  id : Option Int
  confirm : Option Bool
deriving Repr

structure DeleteProjectArgs where
  id : Int
  confirm : Bool
deriving Repr

/-- Schema of `delete_honeybadger_project`: `id: z.number().min(1)` and
`confirm: z.boolean()`, both required (no default on `confirm`). -/
def zodParseDeleteProject (raw : DeleteProjectRawArgs) :
    Option DeleteProjectArgs :=
  match raw.id, raw.confirm with
  | some id, some confirm =>
      if 1 ≤ id then some ⟨id, confirm⟩ else none
  | _, _ => none

/-- The confirmation short-circuit message of `delete_honeybadger_project`. -/
def deleteConfirmationMsg : String :=
  "Deletion requires explicit confirmation (set confirm: true)"

/-- Handler body of `delete_honeybadger_project`: without `confirm` it
short-circuits before any network call; with it, one DELETE to
`/projects/<id>`, then `formatWriteResponse({id}, 'deleted project')`. -/
def deleteProjectHandler (cfg : Config) (args : DeleteProjectArgs)
    (outcome : HttpOutcome String) : ToolResult × List Request :=
  if !args.confirm then (toolError deleteConfirmationMsg, [])
  else
    match makeHoneybadgerRequest cfg ("/projects/" ++ toString args.id) "DELETE"
        [] none outcome with
    | (.ok _, reqs) =>
        (formatWriteResponse (pairsToJson [("id", .pint args.id)])
          "deleted project", reqs)
    | (.error e, reqs) => (toolError e, reqs)

/-- Full `delete_honeybadger_project` pipeline. -/
def delete_honeybadger_project (cfg : Config) (raw : DeleteProjectRawArgs)
    (outcome : HttpOutcome String) : ToolResult × List Request :=
  match zodParseDeleteProject raw with
  | none => (invalidArgumentsResult "delete_honeybadger_project", [])
  | some args => deleteProjectHandler cfg args outcome

/-! ### Tool registry (`setupTools`)

The registry is populated once, in the constructor: `registerReadTools()`
always runs, `registerWriteTools()` only when `!this.config.readOnly`.
Nothing mutates the registry afterwards, so it is a pure function of the
startup configuration. -/

/-- The names registered by `registerReadTools`, in registration order. -/
def readToolNames : List String :=
  ["list_honeybadger_projects", "get_honeybadger_project",
   "get_honeybadger_project_occurrence_counts",
   "get_honeybadger_project_integrations", "get_honeybadger_project_report",
   "list_honeybadger_faults", "get_honeybadger_fault",
   "get_honeybadger_fault_counts", "list_honeybadger_fault_notices",
   "list_honeybadger_fault_affected_users", "query_honeybadger_insights",
   "analyze_honeybadger_issue"]

/-- The names registered by `registerWriteTools` (all carry
`destructiveHint: true`), in registration order. -/
def writeToolNames : List String :=
  ["create_honeybadger_project", "update_honeybadger_project",
   "delete_honeybadger_project"]

/-- `setupTools()`: the registry contents fixed at startup. -/
def registeredToolNames (cfg : Config) : List String :=
  readToolNames ++ (if cfg.readOnly then [] else writeToolNames)

/-- The write-enabled flag of the spec's Policy Gate: the negation of the
config's `readOnly` flag. -/
def writeEnabled (readOnlyEnv : Option String) : Bool :=
  !(readOnlyOfEnv readOnlyEnv)

/-! ### `analyze_honeybadger_issue` and `generateAnalysis`

The analysis generator is a deterministic string template.  Free-form JSON
payload values (a notice context, the counts payload, item payloads) are
represented by their serialized form; `fault.id` is a string in the
`HoneybadgerFault` interface of the source.  `generateAnalysis` appends its
sections in source order, so it is translated as a concatenation of
per-section functions. -/

/-- Prefix test for character lists (JS `String.prototype.startsWith` on the
candidate suffix). -/
def listIsPre : List Char → List Char → Bool
  | [], _ => true
  | _ :: _, [] => false
  | a :: as, b :: bs => a == b && listIsPre as bs

/-- JS `s.includes(sub)`: substring containment. -/
def jsIncludes (s sub : String) : Bool :=
  s.toList.tails.any (fun t => listIsPre sub.toList t)

/-- The fault fields read by `generateAnalysis` (interface
`HoneybadgerFault`). -/
structure Fault where
  id : String
  klass : String
  message : String
  environment : String
  notices_count : Int
  created_at : String
  last_notice_at : String
  resolved : Bool
  url : String
deriving Repr

/-- One backtrace frame (interface `HoneybadgerNotice.backtrace[i]`);
`source` maps line numbers to code lines. -/
structure Frame where
  number : String
  file : String
  method : String
  source : Option (List (String × String))
deriving Repr

/-- The notice fields read by `generateAnalysis`; `context` is represented
by its serialized form, `params` by its fields. -/
structure Notice where
  backtrace : Option (List Frame)
  context : Option String
  params : Option (List (String × PVal))
deriving Repr

/-- The notices envelope of the analysis operation
(`noticesData.results || []`). -/
structure NoticesEnvelope where
  results : Option (List Notice)
deriving Repr

/-- One affected-user entry (`{user, count}`). -/
structure UserEntry where
  user : String
  count : Int
deriving Repr

/-- The affected-users payload:
`Array.isArray(data) ? data : (data.results || [])`, with an optional
`total_count` on the object form. -/
inductive UsersPayload where
  | arr (items : List UserEntry) : UsersPayload
  | obj (results : Option (List UserEntry)) (total_count : Option Int) :
      UsersPayload
deriving Repr

/-- `Array.isArray(affectedUsersData) ? affectedUsersData :
(affectedUsersData?.results || [])` (with `null` for a failed fetch). -/
def affectedUsersOf : Option UsersPayload → List UserEntry
  | none => []
  | some (.arr items) => items
  | some (.obj results _) => results.getD []

/-- `affectedUsersData?.total_count || affectedUsers.length` (JS numeric
truthiness: a zero or absent `total_count` falls back to the length). -/
def affectedUsersTotal (data : Option UsersPayload) (len : Nat) : Int :=
  match data with
  | some (.obj _ (some t)) => if t ≠ 0 then t else (len : Int)
  | _ => (len : Int)

/-- The fault-overview header of the analysis, up to
`The error "<klass>" suggests:`. -/
def analysisOverview (fault : Fault) : String :=
  "# Honeybadger Issue Analysis\n\n## Fault Overview\n- **ID**: " ++ fault.id ++
  "\n- **Error Class**: " ++ fault.klass ++
  "\n- **Message**: " ++ fault.message ++
  "\n- **Environment**: " ++ fault.environment ++
  "\n- **Occurrences**: " ++ toString fault.notices_count ++
  "\n- **First Seen**: " ++ fault.created_at ++
  "\n- **Last Seen**: " ++ fault.last_notice_at ++
  "\n- **Status**: " ++ (if fault.resolved then "Resolved" else "Unresolved") ++
  "\n- **URL**: " ++ fault.url ++
  "\n\n## Error Analysis\n\n### Error Type\nThe error \"" ++ fault.klass ++
  "\" suggests:"

/-- The error-class hint lines (the first `if/else if` chain on
`fault.klass.includes(...)`). -/
def errorTypeHints (klass : String) : String :=
  if jsIncludes klass "NoMethodError" then
    "\n- A method is being called on an object that doesn\x27t respond to it" ++
    "\n- Possible nil object or wrong object type" ++
    "\n- Missing method definition or typo in method name"
  else if jsIncludes klass "NameError" then
    "\n- Undefined variable or constant\n- Typo in variable/constant name" ++
    "\n- Scope issues"
  else if jsIncludes klass "ArgumentError" then
    "\n- Wrong number of arguments passed to a method" ++
    "\n- Invalid argument values\n- Method signature mismatch"
  else if jsIncludes klass "ActiveRecord" then
    "\n- Database-related error\n- Possible migration issues" ++
    "\n- Invalid queries or constraints"
  else
    "\n- Review the specific error class documentation" ++
    "\n- Check for common patterns in this error type"

/-- Rendering of one backtrace frame inside the `forEach` (index 0 is the
primary location, indices 1–4 are listed, later frames are skipped). -/
def renderFrame (idx : Nat) (f : Frame) : String :=
  if idx = 0 then
    "\n**Primary Error Location:**\n- File: `" ++ f.file ++ "`\n- Method: `" ++
      f.method ++ "`\n- Line: " ++ f.number ++
    (match f.source with
     | some entries =>
        "\n- Context:\n```\n" ++
          String.intercalate "\n" (entries.map (fun e => e.1 ++ ": " ++ e.2)) ++
        "\n```"
     | none => "")
  else if idx < 5 then
    "\n- " ++ f.file ++ ":" ++ f.number ++ " in `" ++ f.method ++ "`"
  else ""

/-- The stack-trace / context / parameters sections, produced only when
there is a latest notice (`notices[0]`). -/
def stackTraceSection (notices : List Notice) (includeContext : Bool) : String :=
  match notices.head? with
  | none => ""
  | some latestNotice =>
    "\n\n### Stack Trace Analysis\n" ++
    String.join
      (((latestNotice.backtrace.getD []).take 10).enum.map
        (fun p => renderFrame p.1 p.2)) ++
    (if includeContext then
      match latestNotice.context with
      | some ctx => "\n\n### Request Context\n```json\n" ++ ctx ++ "\n```"
      | none => ""
     else "") ++
    (if includeContext then
      match latestNotice.params with
      | some ps =>
        if ps.length > 0 then
          "\n\n### Request Parameters\n```json\n" ++ pairsToJson ps ++ "\n```"
        else ""
      | none => ""
     else "")

/-- The trend section: emitted only when `countsData` is non-null. -/
def trendSection (countsData : Option String) : String :=
  match countsData with
  | some c =>
    "\n\n## Trend Analysis (Last 30 Days)\n- Total fault count data: " ++ c
  | none => ""

/-- The impact section: emitted only when the affected-user list is
nonempty. -/
def impactSection (affectedUsersData : Option UsersPayload) : String :=
  let affectedUsers := affectedUsersOf affectedUsersData
  if affectedUsers.length > 0 then
    "\n\n## Impact Assessment\n- Unique users affected: " ++
      toString (affectedUsersTotal affectedUsersData affectedUsers.length) ++
    "\n- Top affected users:\n" ++
    String.intercalate "\n"
      ((affectedUsers.take 5).map
        (fun u => "  - " ++ u.user ++ ": " ++ toString u.count ++ " occurrences"))
  else ""

/-- The static head of the fix-strategies section. -/
def fixStrategiesHead : String :=
  "\n\n## Recommended Fix Strategies\n\n### Immediate Actions" ++
  "\n1. **Reproduce the Error**\n   - Use the provided context and parameters" ++
  "\n   - Set up similar conditions in development" ++
  "\n   - Add logging around the error location\n\n2. **Quick Fixes**"

/-- The class-specific quick fixes (second `if/else if` chain; no `else`
branch in the source). -/
def quickFixes (klass : String) : String :=
  if jsIncludes klass "NoMethodError" then
    "\n   - Add nil checks: `object&.method_name`" ++
    "\n   - Verify object type before method calls" ++
    "\n   - Check method spelling and availability"
  else if jsIncludes klass "ArgumentError" then
    "\n   - Review method signatures\n   - Validate input parameters" ++
    "\n   - Add parameter validation"
  else if jsIncludes klass "ActiveRecord" then
    "\n   - Check database migrations\n   - Validate model associations" ++
    "\n   - Review query syntax"
  else ""

/-- The static tail (long-term solutions, monitoring, next steps) and the
footer naming the fault. -/
def analysisTail (faultId : String) : String :=
  "\n\n### Long-term Solutions\n1. **Add Error Handling**" ++
  "\n   - Implement proper exception handling" ++
  "\n   - Add user-friendly error messages" ++
  "\n   - Log detailed error information\n\n2. **Add Tests**" ++
  "\n   - Write unit tests covering the error scenario" ++
  "\n   - Add integration tests for the affected flow" ++
  "\n   - Include edge case testing\n\n3. **Code Review**" ++
  "\n   - Review similar patterns in codebase" ++
  "\n   - Look for related potential issues" ++
  "\n   - Implement defensive programming practices\n\n### Monitoring" ++
  "\n- Set up alerts for this error pattern" ++
  "\n- Monitor error frequency after fixes" ++
  "\n- Track related errors that might emerge\n\n## Next Steps" ++
  "\n1. Examine the code at the primary error location" ++
  "\n2. Set up local reproduction using the provided context" ++
  "\n3. Implement the recommended fixes\n4. Add appropriate tests" ++
  "\n5. Deploy and monitor the fix effectiveness\n\n---" ++
  "\n*Analysis generated from Honeybadger fault #" ++ faultId ++ "*"

/-- `generateAnalysis(fault, notices, includeContext, countsData,
affectedUsersData)`: the sections concatenated in source order. -/
def generateAnalysis (fault : Fault) (notices : List Notice)
    (includeContext : Bool) (countsData : Option String)
    (affectedUsersData : Option UsersPayload) : String :=
  analysisOverview fault ++ errorTypeHints fault.klass ++
    stackTraceSection notices includeContext ++ trendSection countsData ++
    impactSection affectedUsersData ++ fixStrategiesHead ++
    quickFixes fault.klass ++ analysisTail fault.id

structure AnalyzeRawArgs where
  fault_id : Option Int
  project_id : Option Int
  include_context : Option Bool
deriving Repr

structure AnalyzeArgs where
  fault_id : Int
  project_id : Option Int
  include_context : Bool
deriving Repr

/-- Schema of `analyze_honeybadger_issue`: `fault_id: z.number().min(1)`
(required), `project_id: z.number().min(1).optional()`,
`include_context: z.boolean().default(true)`. -/
def zodParseAnalyze (raw : AnalyzeRawArgs) : Option AnalyzeArgs :=
  match raw.fault_id with
  | none => none
  | some fid =>
    if decide (1 ≤ fid) &&
        (match raw.project_id with
         | some p => decide (1 ≤ p)
         | none => true) then
      some ⟨fid, raw.project_id, raw.include_context.getD true⟩
    else none

/-- Handler body of `analyze_honeybadger_issue`.  The four sub-fetch
outcomes are explicit; `occurredAfterIso` stands for the computed
`new Date(Date.now() - 30 days).toISOString()` value (the only
time-dependent input).  `Promise.all([fault, notices])` rejects the whole
call when either required fetch fails (the fault fetch error taking
precedence, matching array order); the counts and affected-users fetches
carry `.catch(() => null)` and degrade to `null`. -/
def analyzeIssueHandler (cfg : Config) (args : AnalyzeArgs)
    (occurredAfterIso : String)
    (faultOut : HttpOutcome Fault) (noticesOut : HttpOutcome NoticesEnvelope)
    (countsOut : HttpOutcome String) (usersOut : HttpOutcome UsersPayload) :
    ToolResult × List Request :=
  match resolveProjectId (args.project_id.map JsNum.int) cfg.projectId with
  | .error e => (toolError e, [])
  | .ok pid =>
    let base := "/projects/" ++ pid.render ++ "/faults/" ++ toString args.fault_id
    let (faultRes, reqs1) := makeHoneybadgerRequest cfg base "GET" [] none faultOut
    let (noticesRes, reqs2) := makeHoneybadgerRequest cfg (base ++ "/notices")
      "GET" [("limit", .pint 5)] none noticesOut
    match faultRes with
    | .error e => (toolError e, reqs1 ++ reqs2)
    | .ok fault =>
      match noticesRes with
      | .error e => (toolError e, reqs1 ++ reqs2)
      | .ok noticesData =>
        let notices := noticesData.results.getD []
        let (countsRes, reqs3) := makeHoneybadgerRequest cfg
          ("/projects/" ++ pid.render ++ "/faults/counts") "GET"
          [("occurred_after", .pstr occurredAfterIso)] none countsOut
        let (usersRes, reqs4) := makeHoneybadgerRequest cfg
          (base ++ "/affected_users") "GET" [("limit", .pint 10)] none usersOut
        let countsData : Option String :=
          match countsRes with
          | .ok c => some c
          | .error _ => none
        let usersData : Option UsersPayload :=
          match usersRes with
          | .ok u => some u
          | .error _ => none
        ({ text := generateAnalysis fault notices args.include_context
              countsData usersData,
           isError := false }, reqs1 ++ reqs2 ++ reqs3 ++ reqs4)

/-- Full `analyze_honeybadger_issue` pipeline. -/
def analyze_honeybadger_issue (cfg : Config) (raw : AnalyzeRawArgs)
    (occurredAfterIso : String)
    (faultOut : HttpOutcome Fault) (noticesOut : HttpOutcome NoticesEnvelope)
    (countsOut : HttpOutcome String) (usersOut : HttpOutcome UsersPayload) :
    ToolResult × List Request :=
  match zodParseAnalyze raw with
  | none => (invalidArgumentsResult "analyze_honeybadger_issue", [])
  | some args =>
      analyzeIssueHandler cfg args occurredAfterIso faultOut noticesOut
        countsOut usersOut

/-! ### Round-trip facts about the date model -/

theorem padDigits_length (k n : Nat) : (padDigits k n).length = k := by
  induction k generalizing n with
  | zero => rfl
  | succ k ih => simp [padDigits, ih]

theorem digitVal_digitChr : ∀ d < 10, digitVal (digitChr d) = d := by decide

theorem isDigit_digitChr : ∀ d < 10, (digitChr d).isDigit = true := by decide

theorem padDigits_all_digit (k n : Nat) :
    (padDigits k n).all Char.isDigit = true := by
  induction k generalizing n with
  | zero => rfl
  | succ k ih =>
    simp only [padDigits, List.all_append, ih, Bool.true_and, List.all_cons,
      List.all_nil, Bool.and_true]
    exact isDigit_digitChr (n % 10) (Nat.mod_lt _ (by norm_num))

theorem foldl_padDigits (k : Nat) :
    ∀ (n acc : Nat), n < 10 ^ k →
      (padDigits k n).foldl (fun acc c => acc * 10 + digitVal c) acc =
        acc * 10 ^ k + n := by
  induction k with
  | zero =>
    intro n acc h
    interval_cases n
    simp [padDigits]
  | succ k ih =>
    intro n acc h
    have hdiv : n / 10 < 10 ^ k := by
      rw [Nat.div_lt_iff_lt_mul (by norm_num)]
      calc n < 10 ^ (k + 1) := h
        _ = 10 ^ k * 10 := by ring
    have hmod : n % 10 < 10 := Nat.mod_lt _ (by norm_num)
    simp only [padDigits, List.foldl_append, ih (n / 10) acc hdiv, List.foldl_cons,
      List.foldl_nil, digitVal_digitChr (n % 10) hmod]
    have := Nat.div_add_mod n 10
    ring_nf
    omega

theorem parseDigits_pad (k n : Nat) (rest : List Char) (h : n < 10 ^ k) :
    parseDigits k (padDigits k n ++ rest) = some (n, rest) := by
  have hlen : (padDigits k n).length = k := padDigits_length k n
  have htake : (padDigits k n ++ rest).take k = padDigits k n := by
    have := List.take_left (padDigits k n) rest
    rwa [hlen] at this
  have hdrop : (padDigits k n ++ rest).drop k = rest := by
    have := List.drop_left (padDigits k n) rest
    rwa [hlen] at this
  unfold parseDigits
  rw [htake, hdrop, if_pos ⟨hlen, padDigits_all_digit k n⟩,
    foldl_padDigits k n 0 h]
  simp

theorem expectChar_cons (c : Char) (xs : List Char) :
    expectChar c (c :: xs) = some xs := by
  simp [expectChar]

/-- Every month has at most 31 days. -/
theorem daysInMonth_le (y m : Nat) : daysInMonth y m ≤ 31 := by
  unfold daysInMonth
  split
  · split <;> omega
  · split <;> omega

/-- Formatting a component-valid date-time and re-parsing it recovers the
same components. -/
theorem parseRaw_toISO (dt : DateTime) (h : dt.Valid) :
    parseRaw (toISOList dt) = some dt := by
  obtain ⟨h1, h2, h3, h4, h5, h6, h7, h8, h9⟩ := h
  have hmo : dt.month < 10 ^ 2 := by omega
  have hday : dt.day < 10 ^ 2 := by
    have := daysInMonth_le dt.year dt.month
    omega
  have hy : dt.year < 10 ^ 4 := by omega
  have hh : dt.hour < 10 ^ 2 := by omega
  have hmi : dt.minute < 10 ^ 2 := by omega
  have hs : dt.second < 10 ^ 2 := by omega
  have hms : dt.millis < 10 ^ 3 := by omega
  have hpadne : ∀ a : Nat, padDigits 2 a ≠ [] := by
    intro a hcontra
    have := padDigits_length 2 a
    rw [hcontra] at this
    simp at this
  rw [toISOList]
  simp only [List.append_assoc, List.cons_append, List.nil_append]
  rw [parseRaw, parseDigits_pad 4 dt.year _ hy]
  simp only []
  rw [expectChar_cons]
  simp only []
  rw [parseDigits_pad 2 dt.month _ hmo]
  simp only []
  rw [expectChar_cons]
  simp only []
  rw [parseDigits_pad 2 dt.day _ hday]
  simp only []
  rw [parseTimePart.eq_def, expectChar_cons]
  simp only []
  rw [parseDigits_pad 2 dt.hour _ hh]
  simp only []
  rw [expectChar_cons]
  simp only []
  rw [parseDigits_pad 2 dt.minute _ hmi]
  simp only []
  rw [expectChar_cons]
  simp only []
  rw [parseDigits_pad 2 dt.second _ hs]
  simp only []
  rw [parseDigits_pad 3 dt.millis _ hms]
  simp only []
  rw [expectChar_cons]

/-- `toISOString` output re-parses to the same instant. -/
theorem jsDateParse_toISO (dt : DateTime) (h : dt.Valid) :
    jsDateParse (toISOString dt) = some dt := by
  have heq : (toISOString dt).toList = toISOList dt := rfl
  rw [jsDateParse, heq, parseRaw_toISO dt h]
  simp [h]

/-- The JS date parse only yields component-valid date-times. -/
theorem jsDateParse_valid (s : String) (dt : DateTime)
    (h : jsDateParse s = some dt) : dt.Valid := by
  rw [jsDateParse] at h
  cases hr : parseRaw s.toList with
  | none =>
    rw [hr] at h
    simp only [] at h
    exact absurd h (by simp)
  | some dt' =>
    rw [hr] at h
    simp only [] at h
    by_cases hv : dt'.Valid
    · rw [if_pos hv] at h
      cases h
      exact hv
    · rw [if_neg hv] at h
      exact absurd h (by simp)

/-! ## Shared evaluation lemmas -/

/-- A truthy explicit project id short-circuits `resolveProjectId`. -/
theorem resolveProjectId_explicit (n : Int) (cfgPid : Option String)
    (h : n ≠ 0) : resolveProjectId (some (.int n)) cfgPid = .ok (.int n) := by
  unfold resolveProjectId
  simp [JsNum.truthy, h]

/-- With a nonempty API key, a successful request returns the payload and
dispatches exactly one request. -/
theorem makeHoneybadgerRequest_ok {α : Type} (cfg : Config) (ep m : String)
    (ps : List (String × PVal)) (b : Option (List (String × PVal))) (d : α)
    (h : cfg.apiKey ≠ "") :
    makeHoneybadgerRequest cfg ep m ps b (.ok d) =
      (.ok d, [⟨m, cfg.baseUrl ++ "/v2" ++ ep, ps, b⟩]) := by
  unfold makeHoneybadgerRequest
  rw [if_neg h]

/-- With a nonempty API key, an error response maps through the taxonomy and
still counts as one dispatched request. -/
theorem makeHoneybadgerRequest_httpError {α : Type} (cfg : Config)
    (ep m : String) (ps : List (String × PVal))
    (b : Option (List (String × PVal))) (status : Nat)
    (ef : Option String) (st : String) (h : cfg.apiKey ≠ "") :
    makeHoneybadgerRequest (α := α) cfg ep m ps b (.httpError status ef st) =
      (.error (httpErrorMessage ep status ef st),
       [⟨m, cfg.baseUrl ++ "/v2" ++ ep, ps, b⟩]) := by
  unfold makeHoneybadgerRequest
  rw [if_neg h]

/-- With a nonempty API key, a transport failure maps to a network error and
still counts as one dispatched request. -/
theorem makeHoneybadgerRequest_networkError {α : Type} (cfg : Config)
    (ep m : String) (ps : List (String × PVal))
    (b : Option (List (String × PVal))) (msg : String) (h : cfg.apiKey ≠ "") :
    makeHoneybadgerRequest (α := α) cfg ep m ps b (.networkError msg) =
      (.error ("Network error: " ++ msg),
       [⟨m, cfg.baseUrl ++ "/v2" ++ ep, ps, b⟩]) := by
  unfold makeHoneybadgerRequest
  rw [if_neg h]

/-- Whatever the outcome, a call with a nonempty API key dispatches exactly
one request. -/
theorem makeHoneybadgerRequest_dispatch {α : Type} (cfg : Config)
    (ep m : String) (ps : List (String × PVal))
    (b : Option (List (String × PVal))) (outcome : HttpOutcome α)
    (h : cfg.apiKey ≠ "") :
    (makeHoneybadgerRequest cfg ep m ps b outcome).2 =
      [⟨m, cfg.baseUrl ++ "/v2" ++ ep, ps, b⟩] := by
  unfold makeHoneybadgerRequest
  rw [if_neg h]
  cases outcome <;> rfl

/-! ## Claim theorems -/

/-- C1: a write-capable operation (`create_honeybadger_project`,
`update_honeybadger_project`, `delete_honeybadger_project`) is in the tool
registry iff the write-enabled flag was true at startup, and that flag is
true exactly when `HONEYBADGER_READ_ONLY` is the literal string `false`.
The registry is a pure function of the startup configuration in this
embedding, reflecting that `setupTools` runs once in the constructor and
nothing mutates the registry afterwards. -/
theorem c1_write_tools_registered_iff_write_enabled
    (apiKeyEnv projectIdEnv baseUrlEnv readOnlyEnv : Option String)
    (t : String) (ht : t ∈ writeToolNames) :
    (writeEnabled readOnlyEnv = true ↔ readOnlyEnv = some "false") ∧
    (t ∈ registeredToolNames
        (mkConfig apiKeyEnv projectIdEnv baseUrlEnv readOnlyEnv) ↔
      writeEnabled readOnlyEnv = true) := by
  have hdisj : t ∉ readToolNames := by
    fin_cases ht <;> decide
  constructor
  · simp [writeEnabled, readOnlyOfEnv]
  · by_cases h : readOnlyEnv = some "false"
    · subst h
      simp [registeredToolNames, mkConfig, readOnlyOfEnv, writeEnabled, ht]
    · simp [registeredToolNames, mkConfig, readOnlyOfEnv, writeEnabled, h,
        hdisj]

theorem c1_write_tools_registered_iff_write_enabled_witness :
    "create_honeybadger_project" ∈ writeToolNames ∧
    ((writeEnabled (some "false") = true ↔
        (some "false" : Option String) = some "false") ∧
     ("create_honeybadger_project" ∈
        registeredToolNames (mkConfig none none none (some "false")) ↔
      writeEnabled (some "false") = true)) :=
  ⟨by decide,
   c1_write_tools_registered_iff_write_enabled none none none (some "false")
     "create_honeybadger_project" (by decide)⟩

/-- C4: the fixed error taxonomy of `makeHoneybadgerRequest`: 401 maps to
the fixed authentication-failed message regardless of the response body;
403/404/422 carry the service message or path; 429 is fixed; any other
error status carries `<status> - <service message>`; a transport failure
(no response) maps to `Network error: <cause>`; and an operation surfaces
the 401 message verbatim as its error result. -/
theorem c4_error_taxonomy :
    (∀ (ep : String) (ef : Option String) (st : String),
       httpErrorMessage ep 401 ef st =
         "Authentication failed. Check HONEYBADGER_API_KEY.") ∧
    (∀ (ep : String) (ef : Option String) (st : String),
       httpErrorMessage ep 403 ef st =
         "Permission denied: " ++ serviceMessage ef st) ∧
    (∀ (ep : String) (ef : Option String) (st : String),
       httpErrorMessage ep 404 ef st = "Not found: " ++ ep) ∧
    (∀ (ep : String) (ef : Option String) (st : String),
       httpErrorMessage ep 422 ef st =
         "Validation error: " ++ serviceMessage ef st) ∧
    (∀ (ep : String) (ef : Option String) (st : String),
       httpErrorMessage ep 429 ef st =
         "Rate limit exceeded. Please wait and retry.") ∧
    (∀ (ep : String) (status : Nat) (ef : Option String) (st : String),
       status ≠ 401 → status ≠ 403 → status ≠ 404 → status ≠ 422 →
       status ≠ 429 →
       httpErrorMessage ep status ef st =
         "Honeybadger API error: " ++ toString status ++ " - " ++
           serviceMessage ef st) ∧
    (∀ (cfg : Config) (ep m : String) (ps : List (String × PVal))
       (b : Option (List (String × PVal))) (msg : String), cfg.apiKey ≠ "" →
       (makeHoneybadgerRequest (α := String) cfg ep m ps b
           (.networkError msg)).1 = .error ("Network error: " ++ msg)) ∧
    (∀ (cfg : Config) (id : Int) (ef : Option String) (st : String),
       cfg.apiKey ≠ "" → 1 ≤ id →
       (get_honeybadger_project cfg (some id) (.httpError 401 ef st)).1 =
         toolError "Authentication failed. Check HONEYBADGER_API_KEY.") := by
  refine ⟨?_, ?_, ?_, ?_, ?_, ?_, ?_, ?_⟩
  · intro ep ef st
    simp [httpErrorMessage]
  · intro ep ef st
    simp [httpErrorMessage]
  · intro ep ef st
    simp [httpErrorMessage]
  · intro ep ef st
    simp [httpErrorMessage]
  · intro ep ef st
    simp [httpErrorMessage]
  · intro ep status ef st h1 h3 h4 h22 h29
    simp [httpErrorMessage, h1, h3, h4, h22, h29]
  · intro cfg ep m ps b msg h
    rw [makeHoneybadgerRequest_networkError cfg ep m ps b msg h]
  · intro cfg id ef st hkey hid
    unfold get_honeybadger_project
    simp only []
    rw [if_pos hid, makeHoneybadgerRequest_httpError _ _ _ _ _ _ _ _ hkey]
    simp [httpErrorMessage]

theorem c4_error_taxonomy_witness :
    ((⟨"k", none, "https://app.honeybadger.io", true⟩ : Config).apiKey ≠ "" ∧
     (500 : Nat) ≠ 401 ∧
     httpErrorMessage "/projects/1" 500 (some "boom") "Server Error" =
       "Honeybadger API error: 500 - boom") ∧
    ((1 : Int) ≤ 1 ∧
     (get_honeybadger_project ⟨"k", none, "https://app.honeybadger.io", true⟩
         (some 1) (.httpError 401 (some "irrelevant body") "Unauthorized")).1 =
       toolError "Authentication failed. Check HONEYBADGER_API_KEY.") :=
  ⟨⟨by decide, by decide,
    c4_error_taxonomy.2.2.2.2.2.1 "/projects/1" 500 (some "boom")
      "Server Error" (by decide) (by decide) (by decide) (by decide)
      (by decide)⟩,
   ⟨by decide,
    c4_error_taxonomy.2.2.2.2.2.2.2
      ⟨"k", none, "https://app.honeybadger.io", true⟩ 1
      (some "irrelevant body") "Unauthorized" (by decide) (by decide)⟩⟩

/-- C5: the effective scope is the explicit `project_id` when supplied
(truthy), otherwise the numeric conversion of the configured
`HONEYBADGER_PROJECT_ID`; with both absent, the call fails before any HTTP
request with a message naming both the parameter and the environment
fallback. -/
theorem c5_scope_resolution :
    (∀ (n : Int) (cfgPid : Option String), n ≠ 0 →
       resolveProjectId (some (.int n)) cfgPid = .ok (.int n)) ∧
    (∀ (s : String) (k : Int), s ≠ "" → jsNumber s = .int k → k ≠ 0 →
       resolveProjectId none (some s) = .ok (.int k)) ∧
    resolveProjectId none none = .error projectIdRequiredMsg ∧
    (∃ a b, projectIdRequiredMsg = a ++ "project_id" ++ b) ∧
    (∃ a b, projectIdRequiredMsg = a ++ "HONEYBADGER_PROJECT_ID" ++ b) ∧
    (∀ (cfg : Config) (fid : Int) (out : HttpOutcome String),
       cfg.projectId = none → 1 ≤ fid →
       get_honeybadger_fault cfg ⟨some fid, none⟩ out =
         (toolError projectIdRequiredMsg, [])) := by
  refine ⟨?_, ?_, rfl, ?_, ?_, ?_⟩
  · exact fun n cfgPid h => resolveProjectId_explicit n cfgPid h
  · intro s k hs hjs hk
    unfold resolveProjectId
    simp [hs, hjs, JsNum.truthy, hk]
  · exact ⟨"Project ID required. Provide via ",
      " parameter or HONEYBADGER_PROJECT_ID env var.", by decide⟩
  · exact ⟨"Project ID required. Provide via project_id parameter or ",
      " env var.", by decide⟩
  · intro cfg fid out hpid hfid
    unfold get_honeybadger_fault
    simp only []
    have hc : (decide (1 ≤ fid) && true) = true := by simp [hfid]
    rw [if_pos hc, hpid]
    rfl

theorem c5_scope_resolution_witness :
    ((41227 : Int) ≠ 0 ∧
     resolveProjectId (some (.int 41227)) (some "99") = .ok (.int 41227)) ∧
    (("99" : String) ≠ "" ∧ jsNumber "99" = .int 99 ∧ (99 : Int) ≠ 0 ∧
     resolveProjectId none (some "99") = .ok (.int 99)) ∧
    ((⟨"k", none, "https://app.honeybadger.io", true⟩ : Config).projectId
        = none ∧ (1 : Int) ≤ 127320184 ∧
     get_honeybadger_fault ⟨"k", none, "https://app.honeybadger.io", true⟩
         ⟨some 127320184, none⟩ (.ok "payload") =
       (toolError projectIdRequiredMsg, [])) :=
  ⟨⟨by decide, c5_scope_resolution.1 41227 (some "99") (by decide)⟩,
   ⟨by decide, by decide, by decide,
    c5_scope_resolution.2.1 "99" 99 (by decide) (by decide) (by decide)⟩,
   ⟨rfl, by decide,
    c5_scope_resolution.2.2.2.2.2
      ⟨"k", none, "https://app.honeybadger.io", true⟩ 127320184
      (.ok "payload") rfl (by decide)⟩⟩

/-- C10: a non-numeric `HONEYBADGER_PROJECT_ID` converts to `NaN`, which
fails the truthiness check in `resolveProjectId`, so a call omitting the
explicit `project_id` fails with the project-ID-required error before any
HTTP request is dispatched. -/
theorem c10_non_numeric_env_project_id :
    (∀ s : String, s ≠ "" → jsNumber s = .nan →
       resolveProjectId none (some s) = .error projectIdRequiredMsg) ∧
    (∀ (cfg : Config) (fid : Int) (out : HttpOutcome String) (s : String),
       cfg.projectId = some s → s ≠ "" → jsNumber s = .nan → 1 ≤ fid →
       get_honeybadger_fault cfg ⟨some fid, none⟩ out =
         (toolError projectIdRequiredMsg, [])) := by
  have key : ∀ s : String, s ≠ "" → jsNumber s = .nan →
      resolveProjectId none (some s) = .error projectIdRequiredMsg := by
    intro s hs hjs
    unfold resolveProjectId
    simp [hs, hjs, JsNum.truthy]
  refine ⟨key, ?_⟩
  intro cfg fid out s hpid hs hjs hfid
  unfold get_honeybadger_fault
  simp only []
  have hc : (decide (1 ≤ fid) && true) = true := by simp [hfid]
  rw [if_pos hc, hpid]
  have h2 : resolveProjectId (Option.map JsNum.int none) (some s) =
      .error projectIdRequiredMsg := key s hs hjs
  rw [h2]

theorem c10_non_numeric_env_project_id_witness :
    (("abc" : String) ≠ "" ∧ jsNumber "abc" = .nan ∧
     resolveProjectId none (some "abc") = .error projectIdRequiredMsg) ∧
    ((⟨"k", some "abc", "https://app.honeybadger.io", true⟩ : Config).projectId
        = some "abc" ∧ (1 : Int) ≤ 127320184 ∧
     get_honeybadger_fault ⟨"k", some "abc", "https://app.honeybadger.io", true⟩
         ⟨some 127320184, none⟩ (.ok "payload") =
       (toolError projectIdRequiredMsg, [])) :=
  ⟨⟨by decide, by decide,
    c10_non_numeric_env_project_id.1 "abc" (by decide) (by decide)⟩,
   ⟨rfl, by decide,
    c10_non_numeric_env_project_id.2
      ⟨"k", some "abc", "https://app.honeybadger.io", true⟩ 127320184
      (.ok "payload") "abc" rfl (by decide) (by decide) (by decide)⟩⟩

/-- C6: a malformed timestamp yields a validation error whose message
contains the literal value and the RFC3339 format hint, and is never passed
through unparsed; a well-formed timestamp is normalized to the extended
ISO-8601 UTC form, which denotes the same instant (re-parsing it recovers
the same components). -/
theorem c6_timestamp_validation :
    (∀ ts : String, ts ≠ "" → jsDateParse ts = none →
       parseTimestamp (some ts) = .error (invalidTimestampMsg ts) ∧
       (∃ a b, invalidTimestampMsg ts = a ++ ts ++ b) ∧
       (∃ c d, invalidTimestampMsg ts = c ++ "RFC3339" ++ d)) ∧
    (∀ (ts : String) (dt : DateTime), jsDateParse ts = some dt →
       parseTimestamp (some ts) = .ok (some (toISOString dt)) ∧
       jsDateParse (toISOString dt) = some dt) := by
  constructor
  · intro ts hts hnone
    refine ⟨?_, ?_, ?_⟩
    · unfold parseTimestamp
      simp only []
      rw [if_neg hts, hnone]
    · exact ⟨"Invalid timestamp: \"",
        "\". Use RFC3339 format, e.g. \"2026-02-16T10:00:00Z\"", rfl⟩
    · refine ⟨"Invalid timestamp: \"" ++ ts ++ "\". Use ",
        " format, e.g. \"2026-02-16T10:00:00Z\"", ?_⟩
      unfold invalidTimestampMsg
      rw [String.append_assoc ("Invalid timestamp: \"" ++ ts) "\". Use "
          "RFC3339",
        String.append_assoc ("Invalid timestamp: \"" ++ ts)
          ("\". Use " ++ "RFC3339") " format, e.g. \"2026-02-16T10:00:00Z\"",
        String.append_assoc "\". Use " "RFC3339"
          " format, e.g. \"2026-02-16T10:00:00Z\"",
        show ("\". Use " ++ ("RFC3339" ++ " format, e.g. \"2026-02-16T10:00:00Z\""))
            = "\". Use RFC3339 format, e.g. \"2026-02-16T10:00:00Z\"" from by decide]
  · intro ts dt h
    have hts : ts ≠ "" := by
      intro he
      subst he
      have : jsDateParse "" = none := by decide
      rw [this] at h
      exact absurd h (by simp)
    constructor
    · unfold parseTimestamp
      simp only []
      rw [if_neg hts, h]
    · exact jsDateParse_toISO dt (jsDateParse_valid ts dt h)

theorem c6_timestamp_validation_witness :
    (("not-a-date" : String) ≠ "" ∧ jsDateParse "not-a-date" = none ∧
     parseTimestamp (some "not-a-date") =
       .error (invalidTimestampMsg "not-a-date")) ∧
    (jsDateParse "2026-02-16T10:00:00Z" = some ⟨2026, 2, 16, 10, 0, 0, 0⟩ ∧
     parseTimestamp (some "2026-02-16T10:00:00Z") =
       .ok (some (toISOString ⟨2026, 2, 16, 10, 0, 0, 0⟩)) ∧
     jsDateParse (toISOString ⟨2026, 2, 16, 10, 0, 0, 0⟩) =
       some ⟨2026, 2, 16, 10, 0, 0, 0⟩) :=
  ⟨⟨by decide, by decide,
    (c6_timestamp_validation.1 "not-a-date" (by decide) (by decide)).1⟩,
   ⟨by decide,
    (c6_timestamp_validation.2 "2026-02-16T10:00:00Z" ⟨2026, 2, 16, 10, 0, 0, 0⟩
      (by decide)).1,
    (c6_timestamp_validation.2 "2026-02-16T10:00:00Z" ⟨2026, 2, 16, 10, 0, 0, 0⟩
      (by decide)).2⟩⟩

/-- C9 counterexample: `delete_honeybadger_project` does not wrap the raw
service response — the handler discards the DELETE response
(`await this.makeHoneybadgerRequest(...)` with no binding) and wraps the
synthesized `{id}` object instead: at a concrete successful call whose raw
response is `"raw-delete-response"`, the result wraps `{"id": 5}` and the
raw response text appears nowhere in it. -/
theorem c9_counterexample :
    (deleteProjectHandler ⟨"k", none, "https://app.honeybadger.io", false⟩
        ⟨5, true⟩ (.ok "raw-delete-response")).1 =
      formatWriteResponse (pairsToJson [("id", .pint 5)]) "deleted project" ∧
    jsIncludes
      (deleteProjectHandler ⟨"k", none, "https://app.honeybadger.io", false⟩
          ⟨5, true⟩ (.ok "raw-delete-response")).1.text
      "raw-delete-response" = false := by decide

/-- C9 (amended): every successful write operation produces a
`formatWriteResponse` result with its fixed label (the three write handlers
are the only `formatWriteResponse` call sites, so no other label occurs):
create and update wrap the raw service response with `created project` /
`updated project`; delete discards the raw DELETE response and wraps a
synthesized `{id}` object with `deleted project` — its conclusion does not
mention the response payload `res`, making the independence explicit. -/
theorem c9_write_confirmation_labels :
    (∀ data operation : String, formatWriteResponse data operation =
       ⟨"Successfully " ++ operation ++ "\n\n" ++ data, false⟩) ∧
    (∀ (cfg : Config) (args : CreateProjectArgs) (res : String),
       cfg.apiKey ≠ "" →
       (createProjectHandler cfg args (.ok res)).1 =
         formatWriteResponse res "created project") ∧
    (∀ (cfg : Config) (args : UpdateProjectArgs) (res : String),
       cfg.apiKey ≠ "" →
       (updateProjectHandler cfg args (.ok res)).1 =
         formatWriteResponse res "updated project") ∧
    (∀ (cfg : Config) (args : DeleteProjectArgs) (res : String),
       cfg.apiKey ≠ "" → args.confirm = true →
       (deleteProjectHandler cfg args (.ok res)).1 =
         formatWriteResponse (pairsToJson [("id", .pint args.id)])
           "deleted project") := by
  refine ⟨fun data operation => rfl, ?_, ?_, ?_⟩
  · intro cfg args res h
    simp only [createProjectHandler]
    rw [makeHoneybadgerRequest_ok _ _ _ _ _ _ h]
  · intro cfg args res h
    simp only [updateProjectHandler]
    rw [makeHoneybadgerRequest_ok _ _ _ _ _ _ h]
  · intro cfg args res h hconfirm
    unfold deleteProjectHandler
    rw [hconfirm]
    simp only [Bool.not_true, Bool.false_eq_true, if_false]
    rw [makeHoneybadgerRequest_ok _ _ _ _ _ _ h]

theorem c9_write_confirmation_labels_witness :
    ((⟨"k", none, "https://app.honeybadger.io", false⟩ : Config).apiKey ≠ "" ∧
     (createProjectHandler ⟨"k", none, "https://app.honeybadger.io", false⟩
         ⟨"acc1", "Proj", none, none, none, none, none, none⟩ (.ok "resp")).1 =
       formatWriteResponse "resp" "created project") ∧
    ((updateProjectHandler ⟨"k", none, "https://app.honeybadger.io", false⟩
         ⟨5, some "NewName", none, none, none, none, none, none⟩
         (.ok "resp2")).1 =
       formatWriteResponse "resp2" "updated project") ∧
    ((⟨5, true⟩ : DeleteProjectArgs).confirm = true ∧
     (deleteProjectHandler ⟨"k", none, "https://app.honeybadger.io", false⟩
         ⟨5, true⟩ (.ok "resp3")).1 =
       formatWriteResponse (pairsToJson [("id", .pint 5)]) "deleted project") :=
  ⟨⟨by decide,
    c9_write_confirmation_labels.2.1
      ⟨"k", none, "https://app.honeybadger.io", false⟩
      ⟨"acc1", "Proj", none, none, none, none, none, none⟩ "resp" (by decide)⟩,
   c9_write_confirmation_labels.2.2.1
     ⟨"k", none, "https://app.honeybadger.io", false⟩
     ⟨5, some "NewName", none, none, none, none, none, none⟩ "resp2"
     (by decide),
   ⟨rfl,
    c9_write_confirmation_labels.2.2.2
      ⟨"k", none, "https://app.honeybadger.io", false⟩ ⟨5, true⟩ "resp3"
      (by decide) rfl⟩⟩

/-- C8 counterexample: the notices listing, given an envelope that carries
both a total count and a page number, produces a summary that reports the
total but no page — the handler never passes page metadata to the
formatter, so the summary does not state the page number present in the
envelope. -/
theorem c8_counterexample :
    (list_honeybadger_fault_notices
        ⟨"k", some "7", "https://app.honeybadger.io", true⟩
        ⟨some 9, none, none⟩ (.ok ⟨some ["item1"], some 5, some 2⟩)).1.text =
      "Found 1 items (5 total)\n\n[\nitem1\n]" ∧
    jsIncludes
      (list_honeybadger_fault_notices
        ⟨"k", some "7", "https://app.honeybadger.io", true⟩
        ⟨some 9, none, none⟩ (.ok ⟨some ["item1"], some 5, some 2⟩)).1.text
      "page" = false := by decide

/-- C8 (amended): an envelope omitting the results key yields an empty item
list and a summary beginning `Found 0 items`, without throwing; the summary
appends the reported total only when the envelope carries a nonzero
`total_count`.  A page number comes only from the request arguments (the
projects listing passes the requested page), never from the envelope, and
the notices listing passes no page metadata at all. -/
theorem c8_list_formatter :
    listSummary 0 (some ⟨none, none, none⟩) = "Found 0 items" ∧
    (∀ (n : Nat) (t : Int) (pp : Option Int), t ≠ 0 →
       listSummary n (some ⟨some t, none, pp⟩) =
         ("Found " ++ toString n ++ " items") ++ " (" ++ toString t ++
           " total)") ∧
    (∀ (n : Nat) (pp : Option Int),
       listSummary n (some ⟨some 0, none, pp⟩) =
         "Found " ++ toString n ++ " items") ∧
    (∀ (md : Option ListMetadata) (items : List String),
       formatListResponse items md =
         ⟨listSummary items.length md ++ "\n\n" ++ jsonStringifyList items,
          false⟩) ∧
    (∀ (cfg : Config) (p fid l : Int) (tc pg : Option Int),
       cfg.apiKey ≠ "" → p ≠ 0 →
       listNoticesHandler cfg ⟨fid, some p, l⟩ (.ok ⟨none, tc, pg⟩) =
         (formatListResponse [] (some ⟨tc, none, none⟩),
          [⟨"GET", cfg.baseUrl ++ "/v2" ++
             ("/projects/" ++ (JsNum.int p).render ++ "/faults/" ++
               toString fid ++ "/notices"),
            [("limit", .pint (min l 25))], none⟩])) ∧
    (∀ (cfg : Config) (pg pp : Int) (tc envPage : Option Int),
       cfg.apiKey ≠ "" →
       listProjectsHandler cfg ⟨none, pg, pp⟩ (.ok ⟨none, tc, envPage⟩) =
         (formatListResponse [] (some ⟨tc, some pg, some pp⟩),
          [⟨"GET", cfg.baseUrl ++ "/v2" ++ "/projects",
            [("page", .pint pg), ("per_page", .pint (min pp 100))],
            none⟩])) := by
  refine ⟨rfl, ?_, ?_, fun md items => rfl, ?_, ?_⟩
  · intro n t pp ht
    unfold listSummary
    simp only []
    rw [if_pos ht]
  · intro n pp
    unfold listSummary
    simp only []
    rw [if_neg (by simp)]
  · intro cfg p fid l tc pg hkey hp
    simp only [listNoticesHandler]
    have h2 : resolveProjectId (Option.map JsNum.int (some p)) cfg.projectId =
        .ok (.int p) := resolveProjectId_explicit p cfg.projectId hp
    rw [h2]
    simp only []
    rw [makeHoneybadgerRequest_ok _ _ _ _ _ _ hkey]
    rfl
  · intro cfg pg pp tc envPage hkey
    simp only [listProjectsHandler]
    rw [makeHoneybadgerRequest_ok _ _ _ _ _ _ hkey]
    rfl

theorem c8_list_formatter_witness :
    ((5 : Int) ≠ 0 ∧
     listSummary 0 (some ⟨some 5, none, none⟩) =
       ("Found " ++ toString (0 : Nat) ++ " items") ++ " (" ++
         toString (5 : Int) ++ " total)") ∧
    ((⟨"k", none, "https://app.honeybadger.io", true⟩ : Config).apiKey ≠ "" ∧
     (3 : Int) ≠ 0 ∧
     listNoticesHandler ⟨"k", none, "https://app.honeybadger.io", true⟩
         ⟨9, some 3, 10⟩ (.ok ⟨none, some 7, some 4⟩) =
       (formatListResponse [] (some ⟨some 7, none, none⟩),
        [⟨"GET", "https://app.honeybadger.io" ++ "/v2" ++
           ("/projects/" ++ (JsNum.int 3).render ++ "/faults/" ++
             toString (9 : Int) ++ "/notices"),
          [("limit", .pint (min 10 25))], none⟩])) ∧
    (listProjectsHandler ⟨"k", none, "https://app.honeybadger.io", true⟩
         ⟨none, 1, 20⟩ (.ok ⟨none, some 7, some 4⟩) =
       (formatListResponse [] (some ⟨some 7, some 1, some 20⟩),
        [⟨"GET", "https://app.honeybadger.io" ++ "/v2" ++ "/projects",
          [("page", .pint 1), ("per_page", .pint (min 20 100))], none⟩])) :=
  ⟨⟨by decide, c8_list_formatter.2.1 0 5 none (by decide)⟩,
   ⟨by decide, by decide,
    c8_list_formatter.2.2.2.2.1
      ⟨"k", none, "https://app.honeybadger.io", true⟩ 3 9 10 (some 7) (some 4)
      (by decide) (by decide)⟩,
   c8_list_formatter.2.2.2.2.2
     ⟨"k", none, "https://app.honeybadger.io", true⟩ 1 20 (some 7) (some 4)
     (by decide)⟩

/-- C7: in `analyze_honeybadger_issue`, a failing best-effort sub-fetch
(trend counts or affected users) is absorbed: the analysis is still produced
(`isError = false`) with the corresponding section empty — the analysis text
decomposes into a prefix and suffix independent of the affected-users data
with exactly the Impact Assessment section in between, and that section is
empty when the fetch failed; likewise the trend section.  By contrast, a
failing fault-detail or notices fetch fails the whole call. -/
theorem c7_best_effort_subfetches :
    (∀ (f : Fault) (n : List Notice) (ic : Bool) (cd : Option String)
       (u : Option UsersPayload),
       generateAnalysis f n ic cd u =
         (analysisOverview f ++ errorTypeHints f.klass ++
            stackTraceSection n ic ++ trendSection cd) ++
           impactSection u ++
           (fixStrategiesHead ++ quickFixes f.klass ++ analysisTail f.id)) ∧
    impactSection none = "" ∧
    trendSection none = "" ∧
    (∀ (cfg : Config) (p fid : Int) (ic : Bool) (iso : String) (fault : Fault)
       (env : NoticesEnvelope) (cd : String) (s : Nat) (ef : Option String)
       (st : String), cfg.apiKey ≠ "" → p ≠ 0 →
       (analyzeIssueHandler cfg ⟨fid, some p, ic⟩ iso (.ok fault) (.ok env)
           (.ok cd) (.httpError s ef st)).1 =
         ⟨generateAnalysis fault (env.results.getD []) ic (some cd) none,
          false⟩) ∧
    (∀ (cfg : Config) (p fid : Int) (ic : Bool) (iso : String) (fault : Fault)
       (env : NoticesEnvelope) (m : String) (u : UsersPayload),
       cfg.apiKey ≠ "" → p ≠ 0 →
       (analyzeIssueHandler cfg ⟨fid, some p, ic⟩ iso (.ok fault) (.ok env)
           (.networkError m) (.ok u)).1 =
         ⟨generateAnalysis fault (env.results.getD []) ic none (some u),
          false⟩) ∧
    (∀ (cfg : Config) (p fid : Int) (ic : Bool) (iso : String) (s : Nat)
       (ef : Option String) (st : String) (nOut : HttpOutcome NoticesEnvelope)
       (cOut : HttpOutcome String) (uOut : HttpOutcome UsersPayload),
       cfg.apiKey ≠ "" → p ≠ 0 →
       (analyzeIssueHandler cfg ⟨fid, some p, ic⟩ iso (.httpError s ef st)
           nOut cOut uOut).1 =
         toolError (httpErrorMessage
           ("/projects/" ++ (JsNum.int p).render ++ "/faults/" ++ toString fid)
           s ef st)) ∧
    (∀ (cfg : Config) (p fid : Int) (ic : Bool) (iso : String) (fault : Fault)
       (m : String) (cOut : HttpOutcome String)
       (uOut : HttpOutcome UsersPayload), cfg.apiKey ≠ "" → p ≠ 0 →
       (analyzeIssueHandler cfg ⟨fid, some p, ic⟩ iso (.ok fault)
           (.networkError m) cOut uOut).1 =
         toolError ("Network error: " ++ m)) := by
  refine ⟨?_, rfl, rfl, ?_, ?_, ?_, ?_⟩
  · intro f n ic cd u
    unfold generateAnalysis
    simp [String.append_assoc]
  · intro cfg p fid ic iso fault env cd s ef st hkey hp
    simp only [analyzeIssueHandler]
    have h2 : resolveProjectId (Option.map JsNum.int (some p)) cfg.projectId =
        .ok (.int p) := resolveProjectId_explicit p cfg.projectId hp
    rw [h2]
    simp only []
    rw [makeHoneybadgerRequest_ok _ _ _ _ _ _ hkey,
      makeHoneybadgerRequest_ok _ _ _ _ _ _ hkey,
      makeHoneybadgerRequest_ok _ _ _ _ _ _ hkey,
      makeHoneybadgerRequest_httpError _ _ _ _ _ _ _ _ hkey]
  · intro cfg p fid ic iso fault env m u hkey hp
    simp only [analyzeIssueHandler]
    have h2 : resolveProjectId (Option.map JsNum.int (some p)) cfg.projectId =
        .ok (.int p) := resolveProjectId_explicit p cfg.projectId hp
    rw [h2]
    simp only []
    rw [makeHoneybadgerRequest_ok _ _ _ _ _ _ hkey,
      makeHoneybadgerRequest_ok _ _ _ _ _ _ hkey,
      makeHoneybadgerRequest_networkError _ _ _ _ _ _ hkey,
      makeHoneybadgerRequest_ok _ _ _ _ _ _ hkey]
  · intro cfg p fid ic iso s ef st nOut cOut uOut hkey hp
    simp only [analyzeIssueHandler]
    have h2 : resolveProjectId (Option.map JsNum.int (some p)) cfg.projectId =
        .ok (.int p) := resolveProjectId_explicit p cfg.projectId hp
    rw [h2]
    simp only []
    rw [makeHoneybadgerRequest_httpError _ _ _ _ _ _ _ _ hkey]
  · intro cfg p fid ic iso fault m cOut uOut hkey hp
    simp only [analyzeIssueHandler]
    have h2 : resolveProjectId (Option.map JsNum.int (some p)) cfg.projectId =
        .ok (.int p) := resolveProjectId_explicit p cfg.projectId hp
    rw [h2]
    simp only []
    rw [makeHoneybadgerRequest_ok _ _ _ _ _ _ hkey,
      makeHoneybadgerRequest_networkError _ _ _ _ _ _ hkey]

theorem c7_best_effort_subfetches_witness :
    ((⟨"k", none, "https://app.honeybadger.io", true⟩ : Config).apiKey ≠ "" ∧
     (3 : Int) ≠ 0 ∧
     (analyzeIssueHandler ⟨"k", none, "https://app.honeybadger.io", true⟩
         ⟨9, some 3, true⟩ "2026-01-01T00:00:00.000Z"
         (.ok ⟨"9", "NoMethodError", "boom", "production", 4, "a", "b", false,
           "u"⟩)
         (.ok ⟨some []⟩) (.ok "counts-payload")
         (.httpError 500 none "Internal Server Error")).1 =
       ⟨generateAnalysis
           ⟨"9", "NoMethodError", "boom", "production", 4, "a", "b", false,
             "u"⟩
           [] true (some "counts-payload") none, false⟩) ∧
    ((analyzeIssueHandler ⟨"k", none, "https://app.honeybadger.io", true⟩
         ⟨9, some 3, true⟩ "2026-01-01T00:00:00.000Z"
         (.httpError 404 none "Not Found") (.ok ⟨some []⟩)
         (.ok "counts-payload") (.ok (.arr []))).1 =
       toolError (httpErrorMessage
         ("/projects/" ++ (JsNum.int 3).render ++ "/faults/" ++
           toString (9 : Int)) 404 none "Not Found")) :=
  ⟨⟨by decide, by decide,
    c7_best_effort_subfetches.2.2.2.1
      ⟨"k", none, "https://app.honeybadger.io", true⟩ 3 9 true
      "2026-01-01T00:00:00.000Z"
      ⟨"9", "NoMethodError", "boom", "production", 4, "a", "b", false, "u"⟩
      ⟨some []⟩ "counts-payload" 500 none "Internal Server Error"
      (by decide) (by decide)⟩,
   c7_best_effort_subfetches.2.2.2.2.2.1
     ⟨"k", none, "https://app.honeybadger.io", true⟩ 3 9 true
     "2026-01-01T00:00:00.000Z" 404 none "Not Found" (.ok ⟨some []⟩)
     (.ok "counts-payload") (.ok (.arr [])) (by decide) (by decide)⟩

/-- C2 counterexample: `list_honeybadger_faults` with `limit = 30` does not
succeed with a clamped limit of 25 — the declared schema
`z.number().min(1).max(25)` rejects the call before the handler (and its
`Math.min` clamp) runs, so the result is an invalid-arguments error and no
request is dispatched. -/
theorem c2_counterexample :
    list_honeybadger_faults ⟨"k", none, "https://app.honeybadger.io", true⟩
        ⟨some 41227, none, none, none, none, some 30, none, none⟩
        (.ok ⟨some [], none, none⟩) =
      (invalidArgumentsResult "list_honeybadger_faults", []) := by decide

/-- C2 (amended): a page-size argument above the declared maximum M (25 for
the faults and notices listings, 100 for the projects listing) is rejected
by the parameter schema with a validation error before any dispatch; an
in-range argument is dispatched exactly as requested (the handler clamp
`Math.min(·, M)` is the identity there), and the clamped value can never
exceed M. -/
theorem c2_page_size_bounds :
    (∀ (cfg : Config) (raw : FaultsRawArgs) (out : HttpOutcome ListEnvelope)
       (l : Int), raw.limit = some l → 25 < l →
       list_honeybadger_faults cfg raw out =
         (invalidArgumentsResult "list_honeybadger_faults", [])) ∧
    (∀ (cfg : Config) (raw : NoticesRawArgs) (out : HttpOutcome ListEnvelope)
       (l : Int), raw.limit = some l → 25 < l →
       list_honeybadger_fault_notices cfg raw out =
         (invalidArgumentsResult "list_honeybadger_fault_notices", [])) ∧
    (∀ (cfg : Config) (raw : ProjectsRawArgs) (out : HttpOutcome ListEnvelope)
       (pp : Int), raw.per_page = some pp → 100 < pp →
       list_honeybadger_projects cfg raw out =
         (invalidArgumentsResult "list_honeybadger_projects", [])) ∧
    (∀ (cfg : Config) (out : HttpOutcome ListEnvelope)
       (p page l : Int) (order : String), cfg.apiKey ≠ "" → p ≠ 0 → l ≤ 25 →
       (listFaultsHandler cfg ⟨some p, none, none, none, none, l, order, page⟩
           out).2 =
         [⟨"GET", cfg.baseUrl ++ "/v2" ++
            ("/projects/" ++ (JsNum.int p).render ++ "/faults"),
           [("limit", .pint l), ("order", .pstr order), ("page", .pint page)],
           none⟩]) ∧
    (∀ l : Int, min l 25 ≤ 25) ∧
    (∀ pp : Int, min pp 100 ≤ 100) := by
  refine ⟨?_, ?_, ?_, ?_, fun l => min_le_right l 25,
    fun pp => min_le_right pp 100⟩
  · intro cfg raw out l hl h25
    have hfail : decide (1 ≤ l ∧ l ≤ 25) = false := by
      simp only [decide_eq_false_iff_not]
      omega
    unfold list_honeybadger_faults zodParseFaults
    rw [hl]
    simp only [hfail, Bool.and_false, Bool.false_and, Bool.if_false_left,
      Bool.and_self]
    simp
  · intro cfg raw out l hl h25
    have hfail : decide (1 ≤ l ∧ l ≤ 25) = false := by
      simp only [decide_eq_false_iff_not]
      omega
    unfold list_honeybadger_fault_notices zodParseNotices
    rw [hl]
    cases hf : raw.fault_id with
    | none => rfl
    | some fid =>
      simp only []
      by_cases h1 : (1 : Int) ≤ fid
      · rw [if_pos h1]
        simp only [hfail, Bool.and_false]
        simp
      · rw [if_neg h1]
  · intro cfg raw out pp hpp h100
    have hfail : ¬ ((1 : Int) ≤ pp ∧ pp ≤ 100) := by omega
    unfold list_honeybadger_projects zodParseProjects
    rw [hpp]
    cases hp : raw.page with
    | none =>
      try simp only []
      rw [if_neg hfail]
    | some pg =>
      try simp only []
      by_cases h1 : (1 : Int) ≤ pg
      · rw [if_pos h1]
        try simp only []
        rw [if_neg hfail]
      · rw [if_neg h1]
  · intro cfg out p page l order hkey hp hl
    simp only [listFaultsHandler]
    have h2 : resolveProjectId (Option.map JsNum.int (some p)) cfg.projectId =
        .ok (.int p) := resolveProjectId_explicit p cfg.projectId hp
    rw [h2]
    try simp only []
    simp only [addStringParam, addTimestampParam]
    rw [min_eq_left hl]
    cases out <;>
      simp [makeHoneybadgerRequest_ok _ _ _ _ _ _ hkey,
        makeHoneybadgerRequest_httpError _ _ _ _ _ _ _ _ hkey,
        makeHoneybadgerRequest_networkError _ _ _ _ _ _ hkey]

theorem c2_page_size_bounds_witness :
    ((⟨some 41227, none, none, none, none, some 30, none, none⟩ :
        FaultsRawArgs).limit = some 30 ∧ (25 : Int) < 30 ∧
     list_honeybadger_faults ⟨"k", none, "https://app.honeybadger.io", true⟩
         ⟨some 41227, none, none, none, none, some 30, none, none⟩
         (.ok ⟨some [], none, none⟩) =
       (invalidArgumentsResult "list_honeybadger_faults", [])) ∧
    ((⟨"k", none, "https://app.honeybadger.io", true⟩ : Config).apiKey ≠ "" ∧
     (41227 : Int) ≠ 0 ∧ (20 : Int) ≤ 25 ∧
     (listFaultsHandler ⟨"k", none, "https://app.honeybadger.io", true⟩
         ⟨some 41227, none, none, none, none, 20, "recent", 1⟩
         (.ok ⟨some [], none, none⟩)).2 =
       [⟨"GET", "https://app.honeybadger.io" ++ "/v2" ++
          ("/projects/" ++ (JsNum.int 41227).render ++ "/faults"),
         [("limit", .pint 20), ("order", .pstr "recent"), ("page", .pint 1)],
         none⟩]) :=
  ⟨⟨rfl, by decide,
    c2_page_size_bounds.1 ⟨"k", none, "https://app.honeybadger.io", true⟩
      ⟨some 41227, none, none, none, none, some 30, none, none⟩
      (.ok ⟨some [], none, none⟩) 30 rfl (by decide)⟩,
   ⟨by decide, by decide, by decide,
    c2_page_size_bounds.2.2.2.1 ⟨"k", none, "https://app.honeybadger.io", true⟩
      (.ok ⟨some [], none, none⟩) 41227 1 20 "recent" (by decide) (by decide)
      (by decide)⟩⟩

/-- C3 counterexample: `create_honeybadger_project` carries
`destructiveHint: true` but has no confirmation flag: invoked without any
confirmation it performs one HTTP POST and returns the write confirmation,
rather than a ConfirmationRequired error with no call. -/
theorem c3_counterexample :
    create_honeybadger_project ⟨"k", none, "https://app.honeybadger.io", false⟩
        ⟨some "acc1", some "Proj", none, none, none, none, none, none⟩
        (.ok "resp") =
      (formatWriteResponse "resp" "created project",
       [⟨"POST", "https://app.honeybadger.io/v2/projects",
         [("account_id", .pstr "acc1")], some [("name", .pstr "Proj")]⟩]) := by
  decide

/-- C3 (amended): of the write-capable operations, only
`delete_honeybadger_project` takes a confirmation flag.  Without
`confirm: true` it returns the ConfirmationRequired error and dispatches no
HTTP request; with it, it dispatches exactly one.  `create` and `update`
have no confirmation flag and always dispatch exactly one HTTP request per
invocation. -/
theorem c3_destructive_confirmation :
    (∀ (cfg : Config) (args : DeleteProjectArgs) (out : HttpOutcome String),
       args.confirm = false →
       deleteProjectHandler cfg args out = (toolError deleteConfirmationMsg, [])) ∧
    (∀ (cfg : Config) (args : DeleteProjectArgs) (out : HttpOutcome String),
       args.confirm = true → cfg.apiKey ≠ "" →
       (deleteProjectHandler cfg args out).2.length = 1) ∧
    (∀ (cfg : Config) (args : CreateProjectArgs) (out : HttpOutcome String),
       cfg.apiKey ≠ "" →
       (createProjectHandler cfg args out).2.length = 1) ∧
    (∀ (cfg : Config) (args : UpdateProjectArgs) (out : HttpOutcome String),
       cfg.apiKey ≠ "" →
       (updateProjectHandler cfg args out).2.length = 1) := by
  refine ⟨?_, ?_, ?_, ?_⟩
  · intro cfg args out hc
    unfold deleteProjectHandler
    rw [hc]
    simp
  · intro cfg args out hc hkey
    unfold deleteProjectHandler
    rw [hc]
    simp only [Bool.not_true, Bool.false_eq_true, if_false]
    cases out <;>
      simp [makeHoneybadgerRequest_ok _ _ _ _ _ _ hkey,
        makeHoneybadgerRequest_httpError _ _ _ _ _ _ _ _ hkey,
        makeHoneybadgerRequest_networkError _ _ _ _ _ _ hkey]
  · intro cfg args out hkey
    simp only [createProjectHandler]
    cases out <;>
      simp [makeHoneybadgerRequest_ok _ _ _ _ _ _ hkey,
        makeHoneybadgerRequest_httpError _ _ _ _ _ _ _ _ hkey,
        makeHoneybadgerRequest_networkError _ _ _ _ _ _ hkey]
  · intro cfg args out hkey
    simp only [updateProjectHandler]
    cases out <;>
      simp [makeHoneybadgerRequest_ok _ _ _ _ _ _ hkey,
        makeHoneybadgerRequest_httpError _ _ _ _ _ _ _ _ hkey,
        makeHoneybadgerRequest_networkError _ _ _ _ _ _ hkey]

theorem c3_destructive_confirmation_witness :
    ((⟨5, false⟩ : DeleteProjectArgs).confirm = false ∧
     deleteProjectHandler ⟨"k", none, "https://app.honeybadger.io", false⟩
         ⟨5, false⟩ (.ok "resp") = (toolError deleteConfirmationMsg, [])) ∧
    ((⟨5, true⟩ : DeleteProjectArgs).confirm = true ∧
     (⟨"k", none, "https://app.honeybadger.io", false⟩ : Config).apiKey ≠ "" ∧
     (deleteProjectHandler ⟨"k", none, "https://app.honeybadger.io", false⟩
         ⟨5, true⟩ (.ok "resp")).2.length = 1) ∧
    ((createProjectHandler ⟨"k", none, "https://app.honeybadger.io", false⟩
         ⟨"acc1", "Proj", none, none, none, none, none, none⟩
         (.ok "resp")).2.length = 1) ∧
    ((updateProjectHandler ⟨"k", none, "https://app.honeybadger.io", false⟩
         ⟨5, none, none, none, none, none, none, none⟩
         (.networkError "timeout")).2.length = 1) :=
  ⟨⟨rfl,
    c3_destructive_confirmation.1
      ⟨"k", none, "https://app.honeybadger.io", false⟩ ⟨5, false⟩
      (.ok "resp") rfl⟩,
   ⟨rfl, by decide,
    c3_destructive_confirmation.2.1
      ⟨"k", none, "https://app.honeybadger.io", false⟩ ⟨5, true⟩
      (.ok "resp") rfl (by decide)⟩,
   c3_destructive_confirmation.2.2.1
     ⟨"k", none, "https://app.honeybadger.io", false⟩
     ⟨"acc1", "Proj", none, none, none, none, none, none⟩ (.ok "resp")
     (by decide),
   c3_destructive_confirmation.2.2.2
     ⟨"k", none, "https://app.honeybadger.io", false⟩
     ⟨5, none, none, none, none, none, none, none⟩ (.networkError "timeout")
     (by decide)⟩

end HB
